import Mathlib

/-!
Verification of the dual-stream recording pipeline of the kvsrecorder
repository (src/audio_recorder.py, src/utils.py).

The Python source is shallowly embedded: every fallible external action
(subprocess spawn, pipe write, stream open, file read) is modelled as an
explicit outcome value, stateful methods become functions from an explicit
state record to a new state together with a trace of observable events, and
text is modelled as lists of characters.  All definitions are executable.
-/

namespace KVS

/-! ## Basic text helpers (Python str operations used by the source) -/

/-- Bytes of a file, as natural numbers. -/
abbrev Bytes := List Nat

/-- A Python string, modelled as its list of characters. -/
abbrev Str := List Char

/-! ## audio_recorder.AudioRecorder.audio_callback (lines 347-379)

The callback touches: `self.frames`, `self.ffmpeg_process`,
`self.ffmpeg_process2`, `self.dual_format_enabled`, and the one-shot
attributes `_logged_write_error1` / `_logged_write_error2`.  The outcome of
`process.stdin.write` is an environment value: it may succeed, raise
`BrokenPipeError`, or raise any other exception (carrying a message). -/

/-- Outcome of a `stdin.write` call on an encoder process. -/
inductive WriteOutcome
  | ok
  | brokenPipe
  | err (msg : Str)
deriving DecidableEq

/-- The per-invocation observable behaviour of one encoder subprocess, as
seen from the capture callback: the result of `poll()` (`none` means the
process is still running) and what `stdin.write` would do if called. -/
structure CbProc where
  poll : Option Int
  writeOutcome : WriteOutcome
deriving DecidableEq

/-- The slice of `AudioRecorder` state that `audio_callback` reads or
writes.  `loggedWriteError0` models the unsuffixed attribute
`_logged_write_error` that `start_recording` deletes (lines 47-48); the
callback itself only ever sets `_logged_write_error1` / `_logged_write_error2`
(`hasattr` is modelled by a boolean per attribute). -/
structure CbState where
  ffmpegProcess : Option CbProc
  ffmpegProcess2 : Option CbProc
  dualFormatEnabled : Bool
  loggedWriteError0 : Bool
  loggedWriteError1 : Bool
  loggedWriteError2 : Bool
  frames : List Bytes

/-- A message shown on the status bar by the callback's error handlers. -/
inductive LogEvent
  | writeError1 (msg : Str)
  | writeError2 (msg : Str)
deriving DecidableEq

/-- PortAudio stream-callback return flags (pyaudio.paContinue etc.). -/
inductive PaSignal
  | paContinue
  | paComplete
  | paAbort
deriving DecidableEq

/-- Result of one `audio_callback` invocation: the successor state, the
status-bar messages emitted, and the `(data, flag)` pair returned to
PortAudio. -/
structure CbResult where
  state : CbState
  logged : List LogEvent
  retData : Bytes
  retSignal : PaSignal

/-- One step of the first pipe's write block (lines 352-362), as a function
of the fields it reads (`self.ffmpeg_process` and `_logged_write_error1`):
write only if the process exists and `poll()` is `None`; swallow
`BrokenPipeError`; log any other exception at most once, gated by the flag.
Returns the updated flag and emitted messages. -/
def writeBlock1 (proc : Option CbProc) (flag : Bool) : Bool × List LogEvent :=
  match proc with
  | none => (flag, [])
  | some p =>
    if p.poll = none then
      match p.writeOutcome with
      | .ok => (flag, [])
      | .brokenPipe => (flag, [])
      | .err msg => if flag then (flag, []) else (true, [.writeError1 msg])
    else (flag, [])

/-- One step of the second pipe's write block (lines 365-375): additionally
gated by `dual_format_enabled`, with `_logged_write_error2`. -/
def writeBlock2 (dual : Bool) (proc : Option CbProc) (flag : Bool) :
    Bool × List LogEvent :=
  match proc with
  | none => (flag, [])
  | some p =>
    if dual && (p.poll = none : Bool) then
      match p.writeOutcome with
      | .ok => (flag, [])
      | .brokenPipe => (flag, [])
      | .err msg => if flag then (flag, []) else (true, [.writeError2 msg])
    else (flag, [])

/-- `audio_callback(self, in_data, frame_count, time_info, status)`
(lines 347-379).  `self.frames.append(in_data)` happens before the guarded
region; the whole write region sits in a `try/except Exception: pass`, and
every modelled failure (any `WriteOutcome`) is handled inside it, so the
function is total; the return value is always `(in_data, paContinue)`. -/
def audioCallback (st : CbState) (inData : Bytes) : CbResult :=
  let r1 := writeBlock1 st.ffmpegProcess st.loggedWriteError1
  let r2 := writeBlock2 st.dualFormatEnabled st.ffmpegProcess2 st.loggedWriteError2
  { state := { st with
      frames := st.frames ++ [inData]
      loggedWriteError1 := r1.1
      loggedWriteError2 := r2.1 }
    logged := r1.2 ++ r2.2
    retData := inData
    retSignal := .paContinue }

/-- Feeding a list of buffers through the callback in order, collecting all
status-bar messages (the capture thread delivering N buffers). -/
def feedBuffers (st : CbState) : List Bytes → CbState × List LogEvent
  | [] => (st, [])
  | b :: bs =>
    let r := audioCallback st b
    let rest := feedBuffers r.state bs
    (rest.1, r.logged ++ rest.2)

/-- The flag-reset step of `start_recording` (lines 46-48): it deletes the
attribute `_logged_write_error` if present — the unsuffixed name, which the
callback never sets; `_logged_write_error1` and `_logged_write_error2` are
untouched. -/
def startResetFlags (st : CbState) : CbState :=
  { st with loggedWriteError0 := false }

/-- Messages attributed to the first pipe. -/
def isWriteError1 : LogEvent → Bool
  | .writeError1 _ => true
  | .writeError2 _ => false

/-- Messages attributed to the second pipe. -/
def isWriteError2 : LogEvent → Bool
  | .writeError1 _ => false
  | .writeError2 _ => true

/-! ## audio_recorder.AudioRecorder.start_recording, spawn phase (lines 284-345)

After the ffmpeg availability/codec checks and command construction, the
inner `try` spawns the first process, then (when dual) the second, then opens
the audio stream and creates the logs.  Any exception reaches the inner
`except` (lines 330-340), which calls `terminate()` on every process variable
that is set, clears them, and re-raises; the outer `except` then returns
`False`.  `create_recording_log` catches its own exceptions and returns a
boolean, so it cannot abort the start.  The model takes the recorder with
both process variables `None` at entry (the state after `__init__` or a
completed `stop_recording`). -/

/-- An opaque handle standing for a successfully spawned `subprocess.Popen`. -/
structure ProcHandle where
  pid : Nat
deriving DecidableEq

/-- Environment outcomes for the spawn phase: each `Popen` call and the
`self.audio.open` call either succeeds or raises (with a message). -/
structure StartEnv where
  spawn1 : Except Str ProcHandle
  spawn2 : Except Str ProcHandle
  openStream : Except Str Unit

/-- Result of the spawn phase: the value `start_recording` returns, the
final process variables, and which processes had `terminate()` called on
them during cleanup (by index). -/
structure StartOutcome where
  ok : Bool
  proc1 : Option ProcHandle
  proc2 : Option ProcHandle
  terminated : List Nat
deriving DecidableEq

/-- The spawn phase of `start_recording` (lines 284-345), for a session
with `dual_format_enabled = dual`. -/
def startSpawnPhase (dual : Bool) (env : StartEnv) : StartOutcome :=
  match env.spawn1 with
  | .error _ =>
    -- Popen raised before `self.ffmpeg_process` was assigned: the cleanup
    -- at lines 332-338 finds both variables None, re-raises, outer except
    -- returns False.
    { ok := false, proc1 := none, proc2 := none, terminated := [] }
  | .ok p1 =>
    if dual then
      match env.spawn2 with
      | .error _ =>
        -- Second Popen raised: cleanup terminates the first process and
        -- clears it (lines 332-334), then returns False.
        { ok := false, proc1 := none, proc2 := none, terminated := [1] }
      | .ok p2 =>
        match env.openStream with
        | .error _ =>
          { ok := false, proc1 := none, proc2 := none, terminated := [1, 2] }
        | .ok _ =>
          { ok := true, proc1 := some p1, proc2 := some p2, terminated := [] }
    else
      match env.openStream with
      | .error _ =>
        { ok := false, proc1 := none, proc2 := none, terminated := [1] }
      | .ok _ =>
        { ok := true, proc1 := some p1, proc2 := none, terminated := [] }

/-- Whether an `Except` outcome succeeded. -/
def exceptOk {ε α : Type} : Except ε α → Bool
  | .ok _ => true
  | .error _ => false

/-! ## audio_recorder.AudioRecorder.stop_recording (lines 381-541)

`stop_recording` is modelled as a total function from a stop-time state to
the trace of observable actions it performs, in order, plus its boolean
result.  Every fallible step it contains is wrapped in a handler in the
source, so the model needs no exception propagation. -/

/-- Behaviour of one encoder subprocess during shutdown:
`poll0` is `poll()` at entry to the close block (line 397); `closeOutcome`
is what `stdin.close()` does; `waitTimesOut` tells whether `wait(timeout=5)`
raises `TimeoutExpired`; `pollAfterTerm` is `poll()` evaluated after
`terminate()` and the 0.5 s sleep (line 412); `rcAfter` is the `returncode`
attribute once the block is done (possibly `none` if the process never got
reaped); `stderrText` is what `stderr.read()` would yield. -/
structure StopProc where
  poll0 : Option Int
  closeOutcome : WriteOutcome
  waitTimesOut : Bool
  pollAfterTerm : Option Int
  rcAfter : Option Int
  stderrText : Str
deriving DecidableEq

/-- Observable actions of `stop_recording`, tagged with the pipe index
(1 = primary, 2 = secondary) where applicable.  `waitProc` carries the
timeout in seconds, `sleepMs` the sleep in milliseconds, both literal in the
source. -/
inductive StopEvent
  | recordEndTime
  | streamStop
  | streamClose
  | stdinClose (i : Nat)
  | waitProc (i : Nat) (timeoutSecs : Nat)
  | terminateProc (i : Nat)
  | sleepMs (i : Nat) (ms : Nat)
  | killProc (i : Nat)
  | readStderr (i : Nat)
  | calcHash (i : Nat)
  | updateLogCall (i : Nat)
deriving DecidableEq

/-- The finalize sequence for a pipe whose process is still running at stop
time (the body of `if poll() is None:`, lines 398-435 for pipe 1 and
446-472 for pipe 2): close stdin (any error swallowed), wait up to 5 s,
on timeout terminate then sleep 0.5 s then kill only if still alive, then
read stderr when the return code is not zero. -/
def finalizeSeq (i : Nat) (p : StopProc) : List StopEvent :=
  [.stdinClose i, .waitProc i 5]
    ++ (if p.waitTimesOut then
          [.terminateProc i, .sleepMs i 500]
            ++ (if p.pollAfterTerm = none then [.killProc i] else [])
        else [])
    ++ (if p.rcAfter ≠ some 0 then [.readStderr i] else [])

/-- The exit information available once the finalize sequence is done: the
`returncode` attribute as-is, and the stderr text exactly when the source
reads it (return code missing or non-zero).  The sequence always completes
and never raises: every step of it is inside the `try` at lines 395/443
whose handler only prints. -/
def finalizeResult (p : StopProc) : Option Int × Option Str :=
  (p.rcAfter, if p.rcAfter ≠ some 0 then some p.stderrText else none)

/-- The whole close block for one pipe (lines 394-439 / 442-476): skipped
entirely when the process variable is `None`; when the process has already
exited (`poll()` not `None`), nothing inside the guard runs. -/
def closePipe (i : Nat) (p : StopProc) : List StopEvent :=
  if p.poll0 = none then finalizeSeq i p else []

/-- The stop-time state of the recorder: whether `self.stream` is set,
the two process variables, the dual flag, the file sizes on disk
(`none` = the path does not exist), and the two output paths. -/
structure StopState where
  streamOpen : Bool
  proc1 : Option StopProc
  proc2 : Option StopProc
  dual : Bool
  fileSize : Str → Option Nat
  file1 : Str
  file2 : Str

/-- `first_file_success` / `second_file_success` (lines 479, 484):
`os.path.exists(f) and os.path.getsize(f) > 0`. -/
def fileValid (fs : Str → Option Nat) (f : Str) : Bool :=
  match fs f with
  | some n => decide (0 < n)
  | none => false

/-- The trace of `stop_recording` (lines 381-541): record the end time,
stop and close the stream if set, close each pipe in order, judge each
target, and hash + update the log for exactly the valid targets. -/
def stopTrace (st : StopState) : List StopEvent :=
  [.recordEndTime]
    ++ (if st.streamOpen then [.streamStop, .streamClose] else [])
    ++ (match st.proc1 with
        | some p => closePipe 1 p
        | none => [])
    ++ (if st.dual then
          match st.proc2 with
          | some p => closePipe 2 p
          | none => []
        else [])
    ++ (if fileValid st.fileSize st.file1 then [.calcHash 1, .updateLogCall 1] else [])
    ++ (if st.dual && fileValid st.fileSize st.file2 then
          [.calcHash 2, .updateLogCall 2]
        else [])

/-- The boolean `stop_recording` returns (lines 509-537): success exactly
when the primary file exists and is non-empty. -/
def stopResult (st : StopState) : Bool :=
  fileValid st.fileSize st.file1

/-! ## Python str operations used by utils.py -/

/-- `b.startswith(a)` on character lists (`a` is the candidate head). -/
def startsWithL : Str → Str → Bool
  | [], _ => true
  | _ :: _, [] => false
  | a :: as, b :: bs => a = b && startsWithL as bs

/-- Python `s.replace(pat, rep)`: left-to-right, non-overlapping
replacement of every occurrence.  (The source never calls it with an empty
pattern, which the guard leaves unreplaced.) -/
def replaceSub (s pat rep : Str) : Str :=
  match s with
  | [] => []
  | c :: rest =>
    if h : pat ≠ [] ∧ startsWithL pat (c :: rest) = true then
      rep ++ replaceSub ((c :: rest).drop pat.length) pat rep
    else
      c :: replaceSub rest pat rep
termination_by s.length
decreasing_by
  · simp only [List.length_drop, List.length_cons]
    have hp : 0 < pat.length := List.length_pos.mpr h.1
    omega
  · simp

/-- Index of the first occurrence of `pat` in a string, if any
(the scan done by `re.sub` when locating a match). -/
def findSub (pat : Str) : Str → Option Nat
  | [] => if pat = [] then some 0 else none
  | c :: rest =>
    if startsWithL pat (c :: rest) then some 0
    else (findSub pat rest).map (· + 1)

/-- `re.sub(pat + ".*$", rep, line)` restricted to one line: replace from
the first occurrence of the literal `pat` to the end of the line by `rep`. -/
def replaceToEol (l pat rep : Str) : Str :=
  match findSub pat l with
  | none => l
  | some k => l.take k ++ rep

/-- Python `s.strip()` (the source strips only ASCII-whitespace-delimited
timestamps). -/
def trimWs (s : Str) : Str :=
  ((s.dropWhile Char.isWhitespace).reverse.dropWhile Char.isWhitespace).reverse

/-- Decimal digits of a natural number, most significant first (the
characters `str(n)` produces). -/
def natDigits (n : Nat) : Str :=
  if h : n < 10 then [Char.ofNat (48 + n)]
  else natDigits (n / 10) ++ [Char.ofNat (48 + n % 10)]
termination_by n
decreasing_by
  exact Nat.div_lt_self (by omega) (by omega)

/-- Zero-pad a rendered number on the left to width `w`
(`f"{n:0wd}"` for non-negative values). -/
def padZ (w : Nat) (s : Str) : Str :=
  List.replicate (w - s.length) '0' ++ s

/-- `f"{n:0wd}"` for a natural number. -/
def natPad (w n : Nat) : Str :=
  padZ w (natDigits n)

/-- `f"{i:0wd}"` for an integer: the sign, when present, counts towards the
width and precedes the zero padding. -/
def intPad (w : Nat) (i : Int) : Str :=
  if i < 0 then '-' :: natPad (w - 1) i.natAbs else natPad w i.natAbs

/-- Numeric value of a digit string (what `int()` would give). -/
def digitsVal (s : Str) : Nat :=
  s.foldl (fun a c => 10 * a + (c.toNat - 48)) 0

/-! ## Python datetime (utils.py uses strftime, strptime, subtraction) -/

/-- A `datetime.datetime` value. -/
structure DateTime where
  year : Nat
  month : Nat
  day : Nat
  hour : Nat
  minute : Nat
  second : Nat
  micro : Nat
deriving DecidableEq

/-- The invariants Python's `datetime` enforces on its fields. -/
def ValidDT (d : DateTime) : Prop :=
  1 ≤ d.year ∧ d.year ≤ 9999 ∧ 1 ≤ d.month ∧ d.month ≤ 12 ∧ 1 ≤ d.day ∧
    d.day ≤ 31 ∧ d.hour ≤ 23 ∧ d.minute ≤ 59 ∧ d.second ≤ 59 ∧
    d.micro ≤ 999999

instance (d : DateTime) : Decidable (ValidDT d) := by
  unfold ValidDT; infer_instance

/-- `strftime("%Y-%m-%d %H:%M:%S.%f")`: microseconds are rendered as six
zero-padded digits. -/
def strftimeFull (d : DateTime) : Str :=
  natPad 4 d.year ++ ['-'] ++ natPad 2 d.month ++ ['-'] ++ natPad 2 d.day
    ++ [' '] ++ natPad 2 d.hour ++ [':'] ++ natPad 2 d.minute ++ [':']
    ++ natPad 2 d.second ++ ['.'] ++ natPad 6 d.micro

/-- `strftime("%Y-%m-%d %H:%M:%S.%f")[:-3]` — the millisecond-precision
timestamps the logger writes (Python slicing `[:-3]` is `take (len-3)`). -/
def strftimeMilli (d : DateTime) : Str :=
  (strftimeFull d).take ((strftimeFull d).length - 3)

/-- `calendar.isleap` / the Gregorian leap-year rule used by datetime. -/
def isLeapYear (y : Nat) : Bool :=
  y % 4 = 0 && (y % 100 ≠ 0 || y % 400 = 0)

/-- Length of month `m` of year `y` (CPython `_days_in_month`). -/
def daysInMonth (y m : Nat) : Nat :=
  if m = 2 then (if isLeapYear y then 29 else 28)
  else if m = 4 ∨ m = 6 ∨ m = 9 ∨ m = 11 then 30
  else 31

/-- Days in year `y` before the first of month `m`. -/
def daysBeforeMonth (y m : Nat) : Nat :=
  (List.range (m - 1)).foldl (fun acc k => acc + daysInMonth y (k + 1)) 0

/-- Days before January 1st of year `y` (CPython `_days_before_year`). -/
def daysBeforeYear (y : Nat) : Nat :=
  let x := y - 1
  x * 365 + x / 4 - x / 100 + x / 400

/-- CPython `date.toordinal`. -/
def toOrdinal (d : DateTime) : Nat :=
  daysBeforeYear d.year + daysBeforeMonth d.year d.month + d.day

/-- A datetime as microseconds on the proleptic Gregorian time line — the
quantity `timedelta` subtraction measures. -/
def toMicros (d : DateTime) : Nat :=
  (((toOrdinal d * 24 + d.hour) * 60 + d.minute) * 60 + d.second) * 1000000
    + d.micro

/-- The duration string both `create_recording_log` (lines 241-249) and
`update_recording_log` (lines 351-359) build from
`(end_time - start_time).total_seconds()`: `f"{h:02d}:{m:02d}:{s:02d}.{ms:03d}"`
with `h = int(ts // 3600)`, `m = int((ts % 3600) // 60)`,
`s = int(ts % 60)`, `ms = int((ts - int(ts)) * 1000)`.  Python's `//` and
`%` on the (exact) float are floor division and floor remainder, and
`int()` truncates toward zero, giving the integer expressions below. -/
def durationStr (st en : DateTime) : Str :=
  let td : Int := (toMicros en : Int) - (toMicros st : Int)
  let hours := Int.fdiv td 3600000000
  let minutes := Int.fdiv (Int.emod td 3600000000) 60000000
  let seconds := Int.fdiv (Int.emod td 60000000) 1000000
  let millis := Int.tdiv (Int.tmod td 1000000) 1000
  intPad 2 hours ++ [':'] ++ intPad 2 minutes ++ [':'] ++ intPad 2 seconds
    ++ ['.'] ++ intPad 3 millis

/-- Greedily read a non-empty run of decimal digits (what each numeric
`strptime` directive consumes), returning the digits and the rest. -/
def parseDigits (s : Str) : Option (Str × Str) :=
  let ds := s.takeWhile Char.isDigit
  if ds = [] then none else some (ds, s.dropWhile Char.isDigit)

/-- Require a literal character (a separator in the `strptime` format). -/
def expectChar (c : Char) : Str → Option Str
  | [] => none
  | c2 :: rest => if c2 = c then some rest else none

/-- `datetime.strptime(s, "%Y-%m-%d %H:%M:%S")`.  (Python additionally
bounds the field widths and ranges; on the strings this program writes the
two agree.) -/
def strptimeSec (s : Str) : Option DateTime := do
  let (y, s1) ← parseDigits s
  let s2 ← expectChar '-' s1
  let (mo, s3) ← parseDigits s2
  let s4 ← expectChar '-' s3
  let (d, s5) ← parseDigits s4
  let s6 ← expectChar ' ' s5
  let (h, s7) ← parseDigits s6
  let s8 ← expectChar ':' s7
  let (mi, s9) ← parseDigits s8
  let s10 ← expectChar ':' s9
  let (se, s11) ← parseDigits s10
  if s11 = [] then
    pure ⟨digitsVal y, digitsVal mo, digitsVal d, digitsVal h, digitsVal mi,
      digitsVal se, 0⟩
  else none

/-- `datetime.strptime(s, "%Y-%m-%d %H:%M:%S.%f")`: like `strptimeSec` plus
a dot and 1-6 fractional digits, right-padded to microseconds. -/
def strptimeMilli (s : Str) : Option DateTime := do
  let (y, s1) ← parseDigits s
  let s2 ← expectChar '-' s1
  let (mo, s3) ← parseDigits s2
  let s4 ← expectChar '-' s3
  let (d, s5) ← parseDigits s4
  let s6 ← expectChar ' ' s5
  let (h, s7) ← parseDigits s6
  let s8 ← expectChar ':' s7
  let (mi, s9) ← parseDigits s8
  let s10 ← expectChar ':' s9
  let (se, s11) ← parseDigits s10
  let s12 ← expectChar '.' s11
  let (f, s13) ← parseDigits s12
  if s13 = [] then
    pure ⟨digitsVal y, digitsVal mo, digitsVal d, digitsVal h, digitsVal mi,
      digitsVal se, digitsVal f * 10 ^ (6 - f.length)⟩
  else none

/-! ## Filesystem model for utils.py

Audio files are read as bytes and stat-ed; log files are read and written
as text.  A byte file either reads fully or raises partway (any
`open`/`read` exception, carrying `str(e)`); `stat` works whenever the file
exists.  Log files are kept as their list of lines: no string this module
writes into a log, and no pattern it replaces, contains a newline, so
Python's whole-content `str.replace` coincides with per-line replacement. -/

/-- An existing on-disk byte file as `calculate_file_hash` can encounter
it. -/
inductive FileEntry
  | readable (content : Bytes)
  | unreadable (err : Str) (size : Nat)
deriving DecidableEq

/-- `os.path.getsize` of an existing file. -/
def FileEntry.size : FileEntry → Nat
  | readable c => c.length
  | unreadable _ n => n

/-- The filesystem: byte files (audio) and text files (logs); `none` means
the path does not exist. -/
structure FS where
  bytes : Str → Option FileEntry
  text : Str → Option (List Str)

/-- The hash algorithms `calculate_file_hash` can select. -/
inductive HashType
  | md5
  | sha1
  | sha256
deriving DecidableEq

/-- The `hash_type.lower()` dispatch of `calculate_file_hash`
(lines 198-204): anything that is not `md5` or `sha1` selects SHA-256. -/
def selectHash (hashType : Str) : HashType :=
  let lowered := hashType.map Char.toLower
  if lowered = "md5".toList then .md5
  else if lowered = "sha1".toList then .sha1
  else .sha256

/-- The chunks `iter(lambda: f.read(4096), b'')` yields (line 208). -/
def chunks4096 (l : Bytes) : List Bytes :=
  if l = [] then [] else l.take 4096 :: chunks4096 (l.drop 4096)
termination_by l.length
decreasing_by
  rename_i h
  have : l.length ≠ 0 := fun hn => h (List.length_eq_zero.mp hn)
  simp only [List.length_drop]
  omega

/-- `utils.calculate_file_hash(file_path, hash_type='sha256')`
(lines 183-213).  The digest primitive (hashlib) is an external
collaborator, taken as a parameter mapping the fed byte stream to its hex
digest; feeding the 4096-byte chunks in order hashes their concatenation.
The function is total: a missing file returns the literal
`"File not found"` and any open/read exception is caught and rendered as
`"Error calculating hash: " + str(e)`. -/
def calculateFileHash (digest : HashType → Bytes → Str) (fs : FS)
    (filePath : Str) (hashType : Str) : Str :=
  match fs.bytes filePath with
  | none => "File not found".toList
  | some (.readable content) =>
    digest (selectHash hashType) (chunks4096 content).flatten
  | some (.unreadable e _) => "Error calculating hash: ".toList ++ e

/-- `f"{bytes} B"` / `f"{kb:.2f} KB"` / `f"{mb:.2f} MB"` (lines 257-262 and
371-376).  The divisors are powers of two, so `n/1024` and `n/1048576` are
exact doubles and `:.2f` rounds their hundredths half-to-even. -/
def roundHalfEven (num den : Nat) : Nat :=
  let q := num / den
  let r := num % den
  if 2 * r > den then q + 1
  else if 2 * r < den then q
  else if q % 2 = 0 then q else q + 1

/-- Render a number of hundredths as a two-decimal fixed-point string. -/
def fix2 (h : Nat) : Str :=
  natDigits (h / 100) ++ ['.'] ++ natPad 2 (h % 100)

/-- The B/KB/MB size string of the recording log. -/
def formatSize (n : Nat) : Str :=
  if n < 1024 then natDigits n ++ [' ', 'B']
  else if n < 1024 * 1024 then fix2 (roundHalfEven (n * 25) 256) ++ [' ', 'K', 'B']
  else fix2 (roundHalfEven (n * 25) 262144) ++ [' ', 'M', 'B']

/-- The body of the f-string template of `create_recording_log`
(lines 271-298), split at its newlines: the leading newline makes an empty
first line and the trailing newline an empty last line. -/
def logContent (audioPath sizeStr hashStr startStr endStr durStr cmdStr
    platform pyver createdStr : Str) : List Str :=
  [ []
  , "KVSrecorder v1.0.1 - RECORDING LOG".toList
  , "==================================".toList
  , []
  , "File Information:".toList
  , "----------------".toList
  , "Filename: ".toList ++ (audioPath.reverse.takeWhile (· ≠ '/')).reverse
  , "File Path: ".toList ++ audioPath
  , "File Size: ".toList ++ sizeStr
  , "File Hash (SHA-256): ".toList ++ hashStr
  , []
  , "Recording Session:".toList
  , "----------------".toList
  , "Start Time: ".toList ++ startStr
  , "End Time: ".toList ++ endStr
  , "Duration: ".toList ++ durStr
  , []
  , "FFmpeg Command:".toList
  , "----------------".toList
  , cmdStr
  , []
  , "System Information:".toList
  , "----------------".toList
  , "Platform: ".toList ++ platform
  , "Python Version: ".toList ++ pyver
  , "Software Version: 1.0.1".toList
  , "Log Created: ".toList ++ createdStr
  , [] ]

/-- `utils.create_recording_log` (lines 215-307).  `sys.platform`,
`sys.version` and `datetime.now()` are environment inputs.  The text write
itself is modelled as succeeding (an `IOError` is caught by the enclosing
handler, which returns `False` and is exercised by no claim). -/
def createRecordingLog (digest : HashType → Bytes → Str) (fs : FS)
    (logPath audioPath : Str) (command : List Str) (startTime : DateTime)
    (endTime : Option DateTime) (platform pyver : Str) (now : DateTime) :
    Bool × FS :=
  let startStr := strftimeMilli startTime
  let endStr := match endTime with
    | some e => strftimeMilli e
    | none => "In Progress".toList
  let durStr := match endTime with
    | some e => durationStr startTime e
    | none => "In Progress".toList
  let hashStr := match fs.bytes audioPath with
    | some _ => calculateFileHash digest fs audioPath "sha256".toList
    | none => "File not found".toList
  let sizeStr := match fs.bytes audioPath with
    | some entry => formatSize entry.size
    | none => "N/A".toList
  let cmdStr := List.intercalate [' '] command
  let content := logContent audioPath sizeStr hashStr startStr endStr durStr
    cmdStr platform pyver (strftimeMilli now)
  (true, { fs with text := fun p => if p = logPath then some content else fs.text p })

/-- The `if end_time:` body of `update_recording_log` (lines 330-385):
replace the end-time placeholder, recover the start time from the
`Start Time:` line and replace the duration placeholder when it parses,
then refresh the file size when the logged file path exists. -/
def updEndTime (fs : FS) (lines : List Str) (e : DateTime) : List Str :=
  let endStr := strftimeMilli e
  let l1 := lines.map fun l =>
    replaceSub l "End Time: In Progress".toList ("End Time: ".toList ++ endStr)
  let startStr? := (l1.find? fun l => startsWithL "Start Time:".toList l).map
    fun l => trimWs (replaceSub l "Start Time: ".toList [])
  let l2 := match startStr? with
    | none => l1
    | some s =>
      match strptimeMilli s with
      | some stt => l1.map fun l =>
          replaceSub l "Duration: In Progress".toList
            ("Duration: ".toList ++ durationStr stt e)
      | none =>
        match strptimeSec s with
        | some stt => l1.map fun l =>
            replaceSub l "Duration: In Progress".toList
              ("Duration: ".toList ++ durationStr stt e)
        | none => l1
  let path? := (l2.find? fun l => startsWithL "File Path:".toList l).map
    fun l => trimWs (replaceSub l "File Path: ".toList [])
  match path? with
  | none => l2
  | some fp =>
    match fs.bytes fp with
    | none => l2
    | some entry =>
      let szStr := formatSize entry.size
      if l2.any fun l => (findSub "File Size: N/A".toList l).isSome then
        l2.map fun l =>
          replaceSub l "File Size: N/A".toList ("File Size: ".toList ++ szStr)
      else
        l2.map fun l => replaceToEol l "File Size: ".toList
          ("File Size: ".toList ++ szStr)

/-- `utils.update_recording_log` (lines 309-398).  A missing log is a no-op
returning `False` that touches nothing.  A present log is read, edited by
targeted placeholder replacement (Python truthiness: a `None` end time skips
the time block, a `None` or empty hash skips the hash replacement), and
written back. -/
def updateRecordingLog (fs : FS) (logPath : Str) (endTime : Option DateTime)
    (fileHash : Option Str) : Bool × FS :=
  match fs.text logPath with
  | none => (false, fs)
  | some lines =>
    let lines1 := match endTime with
      | none => lines
      | some e => updEndTime fs lines e
    let lines2 := match fileHash with
      | none => lines1
      | some h =>
        if h = [] then lines1
        else lines1.map fun l =>
          replaceSub l "File Hash (SHA-256): File not found".toList
            ("File Hash (SHA-256): ".toList ++ h)
    (true, { fs with text := fun p => if p = logPath then some lines2 else fs.text p })

/-! ## Auxiliary predicates used by the stated properties -/

/-- Every event satisfying `P` occurs strictly before every event
satisfying `Q` in the trace: the trace splits into a `Q`-free part followed
by a `P`-free part. -/
def EventsPrecede (P Q : StopEvent → Prop) (tr : List StopEvent) : Prop :=
  ∃ a b, tr = a ++ b ∧ (∀ e ∈ a, ¬ Q e) ∧ (∀ e ∈ b, ¬ P e)

/-- A lowercase hexadecimal digit, as `hexdigest()` emits them. -/
def isHexLowerChar (c : Char) : Bool :=
  (decide ('0' ≤ c) && decide (c ≤ '9')) || (decide ('a' ≤ c) && decide (c ≤ 'f'))

/-- A 64-character lowercase-hex string (the shape of a SHA-256 digest). -/
def isHex64 (s : Str) : Bool :=
  decide (s.length = 64) && s.all isHexLowerChar

/-- The timestamp character set: `strftimeMilli` output. -/
def tsChar (c : Char) : Bool :=
  c.isDigit || c == '-' || c == ' ' || c == ':' || c == '.'

/-- The duration-string character set: `durationStr` output. -/
def durChar (c : Char) : Bool :=
  c.isDigit || c == '-' || c == ':' || c == '.'

/-- `strftimeFull` up to and including the dot, before the microsecond
field (used to reason about the `[:-3]` slice). -/
def strfHead (d : DateTime) : Str :=
  natPad 4 d.year ++ ['-'] ++ natPad 2 d.month ++ ['-'] ++ natPad 2 d.day
    ++ [' '] ++ natPad 2 d.hour ++ [':'] ++ natPad 2 d.minute ++ [':']
    ++ natPad 2 d.second ++ ['.']

/-! ## Concrete instances used by counterexamples and witnesses -/

/-- A dual start in which the primary spawn succeeds and the secondary
spawn raises. -/
def c1env : StartEnv :=
  { spawn1 := .ok ⟨10⟩
  , spawn2 := .error "launch failed".toList
  , openStream := .ok () }

/-- A dual start in which the primary spawn raises and the secondary
would succeed. -/
def c1wEnv : StartEnv :=
  { spawn1 := .error "launch failed".toList
  , spawn2 := .ok ⟨11⟩
  , openStream := .ok () }

/-- A callback state whose primary encoder process has already exited
(`poll()` returns an exit code). -/
def c2exitedState : CbState :=
  { ffmpegProcess := some { poll := some 1, writeOutcome := .err "boom".toList }
  , ffmpegProcess2 := none
  , dualFormatEnabled := false
  , loggedWriteError0 := false
  , loggedWriteError1 := false
  , loggedWriteError2 := false
  , frames := [] }

/-- A callback state with its primary one-shot flag already set. -/
def c2flaggedState : CbState :=
  { c2exitedState with loggedWriteError1 := true }

/-- A stop-time state whose primary encoder process has already exited and
whose primary file is valid. -/
def c5state : StopState :=
  { streamOpen := true
  , proc1 := some
      { poll0 := some 0
      , closeOutcome := .ok
      , waitTimesOut := false
      , pollAfterTerm := none
      , rcAfter := some 0
      , stderrText := [] }
  , proc2 := none
  , dual := false
  , fileSize := fun _ => some 10
  , file1 := "a.wav".toList
  , file2 := "b.mp3".toList }

/-- A stop-time state with the stream open, a running primary process and
a valid primary file (for witnesses of the ordering properties). -/
def c5wstate : StopState :=
  { streamOpen := true
  , proc1 := some
      { poll0 := none
      , closeOutcome := .ok
      , waitTimesOut := false
      , pollAfterTerm := none
      , rcAfter := some 0
      , stderrText := [] }
  , proc2 := none
  , dual := false
  , fileSize := fun _ => some 10
  , file1 := "a.wav".toList
  , file2 := "b.mp3".toList }

/-- An empty filesystem. -/
def emptyFS : FS :=
  { bytes := fun _ => none, text := fun _ => none }

/-- A filesystem holding one readable byte file (for the C10 witness). -/
def c10fs : FS :=
  { bytes := fun p => if p = "a.wav".toList then some (.readable [1, 2, 3]) else none
  , text := fun _ => none }

/-- A digest collaborator returning a fixed 64-hex string. -/
def c10digest : HashType → Bytes → Str :=
  fun _ _ => List.replicate 64 'a'

/-- The audio path of the C7 round-trip scenario. -/
def c7audioPath : Str := "/tmp/out/rec_20250101-120000.wav".toList

/-- The encoder command of the C7 round-trip scenario. -/
def c7command : List Str :=
  [ "ffmpeg".toList, "-y".toList, "-f".toList, "s16le".toList
  , "-ar".toList, "48000".toList, "-ac".toList, "1".toList
  , "-i".toList, "pipe:0".toList, "-c:a".toList, "pcm_s16le".toList
  , c7audioPath ]

/-- The filesystem of the C7 scenario: no file exists. -/
def c7fs : FS :=
  { bytes := fun _ => none, text := fun _ => none }

/-- The log content of the C7 scenario with its concrete path, command and
platform data merged into literals; the five holes are the hash field, the
three session timestamps/duration and the log-creation timestamp. -/
def c7linesM (hashv ts1 endv durv cr : Str) : List Str :=
  [ []
  , "KVSrecorder v1.0.1 - RECORDING LOG".toList
  , "==================================".toList
  , []
  , "File Information:".toList
  , "----------------".toList
  , "Filename: rec_20250101-120000.wav".toList
  , "File Path: /tmp/out/rec_20250101-120000.wav".toList
  , "File Size: N/A".toList
  , "File Hash (SHA-256): ".toList ++ hashv
  , []
  , "Recording Session:".toList
  , "----------------".toList
  , "Start Time: ".toList ++ ts1
  , "End Time: ".toList ++ endv
  , "Duration: ".toList ++ durv
  , []
  , "FFmpeg Command:".toList
  , "----------------".toList
  , "ffmpeg -y -f s16le -ar 48000 -ac 1 -i pipe:0 -c:a pcm_s16le /tmp/out/rec_20250101-120000.wav".toList
  , []
  , "System Information:".toList
  , "----------------".toList
  , "Platform: linux".toList
  , "Python Version: 3.11.2".toList
  , "Software Version: 1.0.1".toList
  , "Log Created: ".toList ++ cr
  , [] ]

/-- A callback state whose primary process is alive but whose writes raise
a non-BrokenPipe exception. -/
def c2liveState : CbState :=
  { c2exitedState with
      ffmpegProcess := some { poll := none, writeOutcome := .err "boom".toList } }

/-- A dual stop-time state with both files valid (for the C3 witness). -/
def c3state : StopState :=
  { streamOpen := true
  , proc1 := some
      { poll0 := none, closeOutcome := .ok, waitTimesOut := false
      , pollAfterTerm := none, rcAfter := some 0, stderrText := [] }
  , proc2 := some
      { poll0 := none, closeOutcome := .ok, waitTimesOut := false
      , pollAfterTerm := none, rcAfter := some 0, stderrText := [] }
  , dual := true
  , fileSize := fun _ => some 10
  , file1 := "a.wav".toList
  , file2 := "b.mp3".toList }

/-- A dual stop-time state whose secondary file is invalid while the
primary is valid (for the C4 witness). -/
def c4state : StopState :=
  { c3state with
      fileSize := fun p => if p = "b.mp3".toList then some 0 else some 10 }

/-- The single-target variant of `c4state` with the same primary file. -/
def c4state2 : StopState :=
  { c4state with dual := false, proc2 := none }

/-- A process that hangs past the 5 s wait and survives terminate (for the
C6 witness). -/
def c6proc : StopProc :=
  { poll0 := none
  , closeOutcome := .ok
  , waitTimesOut := true
  , pollAfterTerm := none
  , rcAfter := none
  , stderrText := "killed".toList }

/-! # Theorems -/

/-! ## Helper lemmas about the callback (claims C2, C9) -/

lemma writeBlock1_exited (p : CbProc) (flag : Bool) (hpoll : p.poll ≠ none) :
    writeBlock1 (some p) flag = (flag, []) := by
  obtain ⟨poll, wo⟩ := p
  simp only [writeBlock1]
  rw [if_neg (by simpa using hpoll)]

lemma writeBlock1_flagged (proc : Option CbProc) :
    writeBlock1 proc true = (true, []) := by
  rcases proc with _ | ⟨poll, wo⟩
  · rfl
  · rcases poll <;> rcases wo <;> rfl

lemma writeBlock2_exited (dual : Bool) (p : CbProc) (flag : Bool)
    (hpoll : p.poll ≠ none) :
    writeBlock2 dual (some p) flag = (flag, []) := by
  obtain ⟨poll, wo⟩ := p
  simp only [writeBlock2]
  rw [if_neg]
  simp only [Bool.and_eq_true, decide_eq_true_eq]
  rintro ⟨-, h⟩
  exact hpoll (by simpa using h)

lemma writeBlock2_flagged (dual : Bool) (proc : Option CbProc) :
    writeBlock2 dual proc true = (true, []) := by
  rcases proc with _ | ⟨poll, wo⟩
  · rfl
  · rcases dual <;> rcases poll <;> rcases wo <;> rfl

lemma writeBlock1_count2 (proc : Option CbProc) (flag : Bool) :
    (writeBlock1 proc flag).2.countP isWriteError2 = 0 := by
  rcases proc with _ | ⟨poll, wo⟩
  · rfl
  · rcases poll <;> rcases wo <;> rcases flag <;> rfl

lemma writeBlock2_count1 (dual : Bool) (proc : Option CbProc) (flag : Bool) :
    (writeBlock2 dual proc flag).2.countP isWriteError1 = 0 := by
  rcases proc with _ | ⟨poll, wo⟩
  · rfl
  · rcases dual <;> rcases poll <;> rcases wo <;> rcases flag <;> rfl

lemma feed_count1_flagged (bufs : List Bytes) :
    ∀ st : CbState, st.loggedWriteError1 = true →
      ((feedBuffers st bufs).2.countP isWriteError1) = 0 := by
  induction bufs with
  | nil => intro st h; rfl
  | cons b bs ih =>
    intro st h
    simp only [feedBuffers, audioCallback, List.countP_append]
    rw [h, writeBlock1_flagged]
    rw [ih _ (by simp [h, writeBlock1_flagged])]
    simp [writeBlock2_count1]

lemma feed_count2_flagged (bufs : List Bytes) :
    ∀ st : CbState, st.loggedWriteError2 = true →
      ((feedBuffers st bufs).2.countP isWriteError2) = 0 := by
  induction bufs with
  | nil => intro st h; rfl
  | cons b bs ih =>
    intro st h
    simp only [feedBuffers, audioCallback, List.countP_append]
    rw [h, writeBlock2_flagged]
    rw [ih _ (by simp [h, writeBlock2_flagged])]
    simp [writeBlock1_count2]

lemma feed_count1_exited (bufs : List Bytes) :
    ∀ (st : CbState) (p : CbProc), st.ffmpegProcess = some p → p.poll ≠ none →
      ((feedBuffers st bufs).2.countP isWriteError1) = 0 := by
  induction bufs with
  | nil => intro st p hp hpoll; rfl
  | cons b bs ih =>
    intro st p hp hpoll
    simp only [feedBuffers, audioCallback, List.countP_append]
    rw [hp, writeBlock1_exited p _ hpoll]
    rw [ih _ p (by simp [hp]) hpoll]
    simp [writeBlock2_count1]

lemma feed_count2_exited (bufs : List Bytes) :
    ∀ (st : CbState) (p : CbProc), st.ffmpegProcess2 = some p → p.poll ≠ none →
      ((feedBuffers st bufs).2.countP isWriteError2) = 0 := by
  induction bufs with
  | nil => intro st p hp hpoll; rfl
  | cons b bs ih =>
    intro st p hp hpoll
    simp only [feedBuffers, audioCallback, List.countP_append]
    rw [hp, writeBlock2_exited _ p _ hpoll]
    rw [ih _ p (by simp [hp]) hpoll]
    simp [writeBlock1_count2]

lemma writeBlock1_live_err (p : CbProc) (m : Str) (hpoll : p.poll = none)
    (hw : p.writeOutcome = .err m) :
    writeBlock1 (some p) false = (true, [.writeError1 m]) := by
  obtain ⟨poll, wo⟩ := p
  have h1 : poll = none := hpoll
  have h2 : wo = .err m := hw
  subst h1
  subst h2
  rfl

lemma writeBlock2_live_err (p : CbProc) (m : Str) (hpoll : p.poll = none)
    (hw : p.writeOutcome = .err m) :
    writeBlock2 true (some p) false = (true, [.writeError2 m]) := by
  obtain ⟨poll, wo⟩ := p
  have h1 : poll = none := hpoll
  have h2 : wo = .err m := hw
  subst h1
  subst h2
  rfl

lemma feed_count1_live_err (bufs : List Bytes) (st : CbState) (p : CbProc)
    (m : Str) (hne : bufs ≠ []) (hp : st.ffmpegProcess = some p)
    (hpoll : p.poll = none) (hw : p.writeOutcome = .err m)
    (hflag : st.loggedWriteError1 = false) :
    ((feedBuffers st bufs).2.countP isWriteError1) = 1 := by
  rcases bufs with _ | ⟨b, bs⟩
  · exact absurd rfl hne
  · simp only [feedBuffers, audioCallback, List.countP_append]
    rw [hp, hflag, writeBlock1_live_err p m hpoll hw]
    rw [feed_count1_flagged bs _ (by simp [hp, hflag, writeBlock1_live_err p m hpoll hw])]
    simp [writeBlock2_count1, isWriteError1]

lemma feed_count2_live_err (bufs : List Bytes) (st : CbState) (p : CbProc)
    (m : Str) (hne : bufs ≠ []) (hdual : st.dualFormatEnabled = true)
    (hp : st.ffmpegProcess2 = some p) (hpoll : p.poll = none)
    (hw : p.writeOutcome = .err m) (hflag : st.loggedWriteError2 = false) :
    ((feedBuffers st bufs).2.countP isWriteError2) = 1 := by
  rcases bufs with _ | ⟨b, bs⟩
  · exact absurd rfl hne
  · simp only [feedBuffers, audioCallback, List.countP_append]
    rw [hp, hflag, hdual, writeBlock2_live_err p m hpoll hw]
    rw [feed_count2_flagged bs _
      (by simp [hp, hflag, hdual, writeBlock2_live_err p m hpoll hw])]
    simp [writeBlock1_count2, isWriteError2]

/-- C9: for every internal state (processes alive, exited or absent; writes
succeeding, hitting a broken pipe, or raising arbitrarily) and every input
buffer, the capture callback — a total function in this embedding, every
modelled exception being caught inside it — returns the continue signal
with the input data unchanged. -/
theorem c9_callback_never_escapes :
    ∀ (st : CbState) (inData : Bytes),
      (audioCallback st inData).retData = inData ∧
      (audioCallback st inData).retSignal = .paContinue := by
  intro st inData
  exact ⟨rfl, rfl⟩

/-- C2 counterexample: feeding one buffer to a pipe whose process has
already exited produces zero logged write errors, not one (the callback
skips the write when `poll()` is not `None`); and the flag reset in
`start_recording` leaves `_logged_write_error1` set (it deletes the
differently-named `_logged_write_error`). -/
theorem c2_counterexample :
    ((feedBuffers c2exitedState [[0]]).2.countP isWriteError1) = 0 ∧
    (startResetFlags c2flaggedState).loggedWriteError1 = true := by
  constructor
  · rfl
  · rfl

/-- C2 amended: a pipe whose process has already exited gets zero logged
write errors however many buffers are fed (the write is skipped entirely;
a broken pipe on a live process is likewise swallowed unlogged); a live
pipe whose write raises a non-BrokenPipe exception is logged exactly once,
gated by its one-shot flag; and `start_recording`'s flag reset does not
clear either per-pipe flag (it deletes the attribute `_logged_write_error`,
which the callback never sets). -/
theorem c2_write_error_logging_amended :
    ∀ (st : CbState) (bufs : List Bytes) (p : CbProc),
      (st.ffmpegProcess = some p → p.poll ≠ none →
        ((feedBuffers st bufs).2.countP isWriteError1) = 0)
      ∧ (st.ffmpegProcess2 = some p → p.poll ≠ none →
        ((feedBuffers st bufs).2.countP isWriteError2) = 0)
      ∧ (∀ m, bufs ≠ [] → st.ffmpegProcess = some p → p.poll = none →
          p.writeOutcome = .err m → st.loggedWriteError1 = false →
          ((feedBuffers st bufs).2.countP isWriteError1) = 1)
      ∧ (∀ m, bufs ≠ [] → st.dualFormatEnabled = true →
          st.ffmpegProcess2 = some p → p.poll = none →
          p.writeOutcome = .err m → st.loggedWriteError2 = false →
          ((feedBuffers st bufs).2.countP isWriteError2) = 1)
      ∧ (startResetFlags st).loggedWriteError1 = st.loggedWriteError1
      ∧ (startResetFlags st).loggedWriteError2 = st.loggedWriteError2 := by
  intro st bufs p
  refine ⟨fun hp hpoll => feed_count1_exited bufs st p hp hpoll,
    fun hp hpoll => feed_count2_exited bufs st p hp hpoll,
    fun m hne hp hpoll hw hflag =>
      feed_count1_live_err bufs st p m hne hp hpoll hw hflag,
    fun m hne hd hp hpoll hw hflag =>
      feed_count2_live_err bufs st p m hne hd hp hpoll hw hflag,
    rfl, rfl⟩

/-- C2 witness: a live pipe with a failing write gets exactly one logged
error across three fed buffers. -/
theorem c2_witness :
    ((feedBuffers c2liveState [[0], [1], [2]]).2.countP isWriteError1) = 1 :=
  (c2_write_error_logging_amended c2liveState [[0], [1], [2]]
      { poll := none, writeOutcome := .err "boom".toList }).2.2.1
    "boom".toList (by simp) rfl rfl rfl rfl

/-! ## C1: start_recording spawn-failure behaviour -/

/-- C1 counterexample: in a dual-target start where the primary spawn
succeeds and the secondary spawn raises, `start_recording` does not
continue with the surviving target — it terminates the first process,
clears both, and reports failure. -/
theorem c1_counterexample :
    (startSpawnPhase true c1env).ok = false ∧
    (startSpawnPhase true c1env).proc1 = none ∧
    (startSpawnPhase true c1env).proc2 = none ∧
    (startSpawnPhase true c1env).terminated = [1] := by
  refine ⟨rfl, rfl, rfl, rfl⟩

/-- C1 amended: `start_recording` succeeds iff the primary spawn, the
secondary spawn (when dual recording is enabled) and the audio-stream open
all succeed; on any failure it returns failure with both process variables
cleared.  There is no per-target partial-failure tolerance at spawn time
(that tolerance exists only at stop time, where success follows the primary
file alone). -/
theorem c1_start_requires_all_spawns :
    ∀ (dual : Bool) (env : StartEnv),
      ((startSpawnPhase dual env).ok = true ↔
        (exceptOk env.spawn1 = true ∧ (dual = true → exceptOk env.spawn2 = true)
          ∧ exceptOk env.openStream = true))
      ∧ ((startSpawnPhase dual env).ok = false →
          (startSpawnPhase dual env).proc1 = none ∧
          (startSpawnPhase dual env).proc2 = none) := by
  intro dual env
  obtain ⟨s1, s2, os⟩ := env
  cases s1 <;> cases s2 <;> cases os <;> cases dual <;>
    simp [startSpawnPhase, exceptOk]

/-- C1 witness: the amended theorem applied to a concrete failing dual
start. -/
theorem c1_witness :
    (startSpawnPhase true c1wEnv).proc1 = none ∧
    (startSpawnPhase true c1wEnv).proc2 = none :=
  (c1_start_requires_all_spawns true c1wEnv).2 rfl

/-! ## C8: update_recording_log on a missing log -/

/-- C8: for every path at which no log file exists, `update_recording_log`
raises nothing (it is total), creates no file and modifies no state: it
returns `False` together with the unchanged filesystem. -/
theorem c8_update_missing_log_noop :
    ∀ (fs : FS) (logPath : Str) (endTime : Option DateTime)
      (fileHash : Option Str),
      fs.text logPath = none →
      updateRecordingLog fs logPath endTime fileHash = (false, fs) := by
  intro fs lp et fh h
  unfold updateRecordingLog
  rw [h]

/-- C8 witness. -/
theorem c8_witness :
    updateRecordingLog emptyFS "log.txt".toList none none = (false, emptyFS) :=
  c8_update_missing_log_noop emptyFS "log.txt".toList none none rfl

/-! ## C10: calculate_file_hash never raises -/

lemma chunks4096_flatten_aux :
    ∀ (n : Nat) (l : Bytes), l.length ≤ n → (chunks4096 l).flatten = l := by
  intro n
  induction n with
  | zero =>
    intro l hl
    have : l = [] := List.eq_nil_of_length_eq_zero (Nat.le_zero.mp hl)
    subst this
    rw [chunks4096]
    simp
  | succ n ih =>
    intro l hl
    by_cases h : l = []
    · subst h
      rw [chunks4096]
      simp
    · rw [chunks4096, if_neg h, List.flatten_cons]
      rw [ih (l.drop 4096) (by
        have : 0 < l.length := List.length_pos.mpr h
        simp only [List.length_drop]
        omega)]
      exact List.take_append_drop 4096 l

lemma chunks4096_flatten (l : Bytes) : (chunks4096 l).flatten = l :=
  chunks4096_flatten_aux l.length l le_rfl

/-- C10: `calculate_file_hash` is a total function of the file state: a
path naming no existing file yields the literal `"File not found"`, any
open/read error yields a string beginning `"Error calculating hash:"`, a
readable file yields the digest of its full contents (the 4096-byte chunks
concatenate back to the file), and a 64-character lowercase-hex result
occurs only when the file existed and was fully readable. -/
theorem c10_calculate_file_hash_total :
    ∀ (digest : HashType → Bytes → Str) (fs : FS) (path hashType : Str),
      (fs.bytes path = none →
        calculateFileHash digest fs path hashType = "File not found".toList)
      ∧ (∀ e sz, fs.bytes path = some (.unreadable e sz) →
          calculateFileHash digest fs path hashType =
            "Error calculating hash: ".toList ++ e)
      ∧ (∀ b, fs.bytes path = some (.readable b) →
          calculateFileHash digest fs path hashType =
            digest (selectHash hashType) b)
      ∧ (isHex64 (calculateFileHash digest fs path hashType) = true →
          ∃ b, fs.bytes path = some (.readable b) ∧
            calculateFileHash digest fs path hashType =
              digest (selectHash hashType) b) := by
  intro digest fs path hashType
  refine ⟨?_, ?_, ?_, ?_⟩
  · intro h
    unfold calculateFileHash
    rw [h]
  · intro e sz h
    unfold calculateFileHash
    rw [h]
  · intro b h
    unfold calculateFileHash
    rw [h]
    simp [chunks4096_flatten]
  · intro hhex
    rcases hb : fs.bytes path with _ | entry
    · rw [show calculateFileHash digest fs path hashType
          = "File not found".toList by unfold calculateFileHash; rw [hb]] at hhex
      exact absurd hhex (by decide)
    · rcases entry with b | ⟨e, sz⟩
      · refine ⟨b, rfl, ?_⟩
        unfold calculateFileHash
        rw [hb]
        simp [chunks4096_flatten]
      · rw [show calculateFileHash digest fs path hashType
            = "Error calculating hash: ".toList ++ e by
              unfold calculateFileHash; rw [hb]] at hhex
        unfold isHex64 at hhex
        simp only [List.all_append, Bool.and_eq_true] at hhex
        have : ("Error calculating hash: ".toList).all isHexLowerChar = true :=
          hhex.2.1
        exact absurd this (by decide)

/-- C10 witness: a readable file hashes to the digest of its contents,
which is 64-hex for this digest collaborator. -/
theorem c10_witness :
    calculateFileHash c10digest c10fs "a.wav".toList "sha256".toList =
      List.replicate 64 'a' ∧
    isHex64 (calculateFileHash c10digest c10fs "a.wav".toList
      "sha256".toList) = true := by
  have h := (c10_calculate_file_hash_total c10digest c10fs "a.wav".toList
    "sha256".toList).2.2.1 [1, 2, 3] (by decide)
  exact ⟨h.trans rfl, by rw [h]; decide⟩

/-! ## Helper lemmas about the stop trace (claims C3-C6) -/

lemma mem_finalizeSeq (i : Nat) (p : StopProc) (e : StopEvent)
    (he : e ∈ finalizeSeq i p) :
    e = .stdinClose i ∨ e = .waitProc i 5 ∨ e = .terminateProc i ∨
    e = .sleepMs i 500 ∨ e = .killProc i ∨ e = .readStderr i := by
  unfold finalizeSeq at he
  rcases hw : p.waitTimesOut <;>
    by_cases hpt : p.pollAfterTerm = none <;>
    by_cases hrc : p.rcAfter ≠ some 0 <;>
    simp [hw, hpt, hrc] at he <;>
    tauto

lemma mem_closePipe (i : Nat) (p : StopProc) (e : StopEvent)
    (he : e ∈ closePipe i p) :
    e = .stdinClose i ∨ e = .waitProc i 5 ∨ e = .terminateProc i ∨
    e = .sleepMs i 500 ∨ e = .killProc i ∨ e = .readStderr i := by
  unfold closePipe at he
  split at he
  · exact mem_finalizeSeq i p e he
  · simp at he

lemma calcHash_not_mem_closePipe (i j : Nat) (p : StopProc) :
    StopEvent.calcHash i ∉ closePipe j p := by
  intro h
  rcases mem_closePipe j p _ h with h | h | h | h | h | h <;> simp at h

lemma calcHash1_mem_stopTrace (st : StopState) :
    (StopEvent.calcHash 1 ∈ stopTrace st) ↔
      fileValid st.fileSize st.file1 = true := by
  unfold stopTrace
  rcases hs : st.streamOpen <;>
    rcases hp1 : st.proc1 with _ | p1 <;>
    rcases hp2 : st.proc2 with _ | p2 <;>
    rcases hd : st.dual <;>
    rcases hv1 : fileValid st.fileSize st.file1 <;>
    rcases hv2 : fileValid st.fileSize st.file2 <;>
    simp [hs, hp1, hp2, hd, hv1, hv2, calcHash_not_mem_closePipe]

lemma calcHash2_mem_stopTrace (st : StopState) :
    (StopEvent.calcHash 2 ∈ stopTrace st) ↔
      (st.dual = true ∧ fileValid st.fileSize st.file2 = true) := by
  unfold stopTrace
  rcases hs : st.streamOpen <;>
    rcases hp1 : st.proc1 with _ | p1 <;>
    rcases hp2 : st.proc2 with _ | p2 <;>
    rcases hd : st.dual <;>
    rcases hv1 : fileValid st.fileSize st.file1 <;>
    rcases hv2 : fileValid st.fileSize st.file2 <;>
    simp [hs, hp1, hp2, hd, hv1, hv2, calcHash_not_mem_closePipe]

lemma fileValid_iff (fs : Str → Option Nat) (f : Str) :
    fileValid fs f = true ↔ ∃ n, fs f = some n ∧ 0 < n := by
  unfold fileValid
  rcases h : fs f with _ | n <;> simp

/-! ## C3: validity and hashing at stop time -/

/-- C3: at stop time a target is judged valid iff its file exists with
size strictly greater than zero, and the SHA-256 hash is computed for a
target iff that target is valid (the primary unconditionally, the secondary
within dual sessions). -/
theorem c3_valid_iff_hashed :
    ∀ st : StopState,
      ((StopEvent.calcHash 1 ∈ stopTrace st) ↔
        fileValid st.fileSize st.file1 = true)
      ∧ (st.dual = true →
          ((StopEvent.calcHash 2 ∈ stopTrace st) ↔
            fileValid st.fileSize st.file2 = true))
      ∧ (fileValid st.fileSize st.file1 = true ↔
          ∃ n, st.fileSize st.file1 = some n ∧ 0 < n)
      ∧ (fileValid st.fileSize st.file2 = true ↔
          ∃ n, st.fileSize st.file2 = some n ∧ 0 < n) := by
  intro st
  refine ⟨calcHash1_mem_stopTrace st, ?_, fileValid_iff _ _, fileValid_iff _ _⟩
  intro hd
  rw [calcHash2_mem_stopTrace st]
  simp [hd]

/-- C3 witness: in a concrete dual session the secondary is hashed iff its
file is valid. -/
theorem c3_witness :
    (StopEvent.calcHash 2 ∈ stopTrace c3state) ↔
      fileValid c3state.fileSize c3state.file2 = true :=
  (c3_valid_iff_hashed c3state).2.1 rfl

/-! ## C4: stop() success follows the primary target only -/

/-- C4: `stop_recording` returns success exactly when the primary target is
valid; any state agreeing on the primary file's size gives the same result,
so the secondary target (reported only through warnings) never changes
it. -/
theorem c4_stop_success_iff_primary_valid :
    ∀ st : StopState,
      (stopResult st = true ↔ ∃ n, st.fileSize st.file1 = some n ∧ 0 < n)
      ∧ (∀ st2 : StopState, st2.fileSize st2.file1 = st.fileSize st.file1 →
          stopResult st2 = stopResult st) := by
  intro st
  constructor
  · exact fileValid_iff st.fileSize st.file1
  · intro st2 h
    unfold stopResult fileValid
    rw [h]

/-- C4 witness: dropping the failed secondary target leaves the stop result
unchanged. -/
theorem c4_witness : stopResult c4state2 = stopResult c4state :=
  (c4_stop_success_iff_primary_valid c4state).2 c4state2 rfl

/-! ## C6: bounded finalize -/

/-- C6: the finalize sequence of a still-running pipe always waits up to
5 seconds; it sends terminate exactly when that wait times out; after
terminate it sleeps 0.5 s and force-kills exactly when the process is still
alive; and it always completes, yielding whatever return code is available
and reading stderr exactly when that code is missing or non-zero — no
branch raises. -/
theorem c6_finalize_bounded :
    ∀ (i : Nat) (p : StopProc),
      (StopEvent.waitProc i 5 ∈ finalizeSeq i p)
      ∧ ((StopEvent.terminateProc i ∈ finalizeSeq i p) ↔ p.waitTimesOut = true)
      ∧ ((StopEvent.killProc i ∈ finalizeSeq i p) ↔
          (p.waitTimesOut = true ∧ p.pollAfterTerm = none))
      ∧ (p.waitTimesOut = true → p.pollAfterTerm = none →
          finalizeSeq i p =
            [.stdinClose i, .waitProc i 5, .terminateProc i, .sleepMs i 500,
              .killProc i]
              ++ (if p.rcAfter ≠ some 0 then [.readStderr i] else []))
      ∧ ((finalizeResult p).1 = p.rcAfter)
      ∧ (((finalizeResult p).2 = some p.stderrText) ↔ p.rcAfter ≠ some 0) := by
  intro i p
  unfold finalizeSeq finalizeResult
  rcases hw : p.waitTimesOut <;>
    by_cases hpt : p.pollAfterTerm = none <;>
    by_cases hrc : p.rcAfter ≠ some 0 <;>
    simp [hw, hpt, hrc]

/-- C6 witness: a hung process that survives terminate is waited on,
terminated, slept on and killed, in that order, then its stderr read. -/
theorem c6_witness :
    finalizeSeq 1 c6proc =
      [.stdinClose 1, .waitProc 1 5, .terminateProc 1, .sleepMs 1 500,
        .killProc 1]
        ++ (if c6proc.rcAfter ≠ some 0 then [.readStderr 1] else []) :=
  (c6_finalize_bounded 1 c6proc).2.2.2.1 rfl rfl

/-! ## C5: stop() ordering -/

/-- C5 counterexample: in a stop whose primary encoder process has already
exited and whose primary file is valid, the file is hashed although the
pipe was never closed nor waited on — closing and waiting happen only for a
process whose `poll()` is still `None`. -/
theorem c5_counterexample :
    stopTrace c5state =
      [.recordEndTime, .streamStop, .streamClose, .calcHash 1,
        .updateLogCall 1]
    ∧ StopEvent.calcHash 1 ∈ stopTrace c5state
    ∧ StopEvent.stdinClose 1 ∉ stopTrace c5state
    ∧ StopEvent.waitProc 1 5 ∉ stopTrace c5state := by
  refine ⟨rfl, by decide, by decide, by decide⟩

/-- C5 amended: in every execution of `stop_recording` the end time is
recorded first, before any teardown action; every capture-stream close
precedes every pipe-stdin close (and the stream, when open, is closed);
every close/wait/terminate/kill action on a pipe precedes every hash or
log-update of that pipe's file; and a pipe whose process is still running
at stop time is closed and waited on — while a pipe whose process has
already exited is neither closed nor waited on, hashing proceeding
directly (the counterexample). -/
theorem c5_stop_ordering_amended :
    ∀ st : StopState,
      ((stopTrace st).head? = some .recordEndTime)
      ∧ EventsPrecede (· = .streamClose) (fun e => ∃ i, e = .stdinClose i)
          (stopTrace st)
      ∧ (st.streamOpen = true → StopEvent.streamClose ∈ stopTrace st)
      ∧ (∀ i, EventsPrecede
          (fun e => e = .stdinClose i ∨ e = .waitProc i 5 ∨
            e = .terminateProc i ∨ e = .sleepMs i 500 ∨ e = .killProc i ∨
            e = .readStderr i)
          (fun e => e = .calcHash i ∨ e = .updateLogCall i) (stopTrace st))
      ∧ (∀ p, st.proc1 = some p → p.poll0 = none →
          StopEvent.stdinClose 1 ∈ stopTrace st ∧
          StopEvent.waitProc 1 5 ∈ stopTrace st)
      ∧ (∀ p, st.dual = true → st.proc2 = some p → p.poll0 = none →
          StopEvent.stdinClose 2 ∈ stopTrace st ∧
          StopEvent.waitProc 2 5 ∈ stopTrace st) := by
  intro st
  refine ⟨rfl, ?_, ?_, ?_, ?_, ?_⟩
  · -- stream close precedes stdin closes
    refine ⟨[StopEvent.recordEndTime]
        ++ (if st.streamOpen then [.streamStop, .streamClose] else []),
      (match st.proc1 with | some p => closePipe 1 p | none => [])
        ++ ((if st.dual then
              match st.proc2 with
              | some p => closePipe 2 p
              | none => []
            else [])
        ++ ((if fileValid st.fileSize st.file1 then
              [.calcHash 1, .updateLogCall 1] else [])
        ++ (if st.dual && fileValid st.fileSize st.file2 then
              [.calcHash 2, .updateLogCall 2] else []))), ?_, ?_, ?_⟩
    · unfold stopTrace
      simp [List.append_assoc]
    · intro e he
      rcases hs : st.streamOpen <;> simp [hs] at he <;>
        rcases he with rfl | rfl | rfl <;> simp
    · intro e he
      simp only [List.mem_append] at he
      rcases he with he | he | he | he
      · rcases hp : st.proc1 with _ | p
        · rw [hp] at he; simp at he
        · rw [hp] at he
          rcases mem_closePipe _ _ _ he with rfl | rfl | rfl | rfl | rfl | rfl <;>
            simp
      · rcases hd : st.dual <;> rw [hd] at he
        · simp at he
        · rcases hp : st.proc2 with _ | p <;> rw [hp] at he
          · simp at he
          · rcases mem_closePipe _ _ _ he with rfl | rfl | rfl | rfl | rfl | rfl <;>
              simp
      · rcases hv : fileValid st.fileSize st.file1 <;> rw [hv] at he <;>
          simp at he
        rcases he with rfl | rfl <;> simp
      · rcases hv : (st.dual && fileValid st.fileSize st.file2) <;>
          rw [hv] at he <;> simp at he
        rcases he with rfl | rfl <;> simp
  · -- the stream, when open, is closed
    intro hs
    unfold stopTrace
    simp [hs]
  · -- pipe actions precede hashing
    intro i
    refine ⟨[StopEvent.recordEndTime]
        ++ ((if st.streamOpen then [.streamStop, .streamClose] else [])
        ++ ((match st.proc1 with | some p => closePipe 1 p | none => [])
        ++ (if st.dual then
              match st.proc2 with
              | some p => closePipe 2 p
              | none => []
            else []))),
      (if fileValid st.fileSize st.file1 then
        [.calcHash 1, .updateLogCall 1] else [])
        ++ (if st.dual && fileValid st.fileSize st.file2 then
              [.calcHash 2, .updateLogCall 2] else []), ?_, ?_, ?_⟩
    · unfold stopTrace
      simp [List.append_assoc]
    · intro e he
      simp only [List.mem_append, List.mem_singleton] at he
      rcases he with rfl | he | he | he
      · simp
      · rcases hs : st.streamOpen <;> rw [hs] at he <;> simp at he
        rcases he with rfl | rfl <;> simp
      · rcases hp : st.proc1 with _ | p <;> rw [hp] at he
        · simp at he
        · rcases mem_closePipe _ _ _ he with rfl | rfl | rfl | rfl | rfl | rfl <;>
            simp
      · rcases hd : st.dual <;> rw [hd] at he
        · simp at he
        · rcases hp : st.proc2 with _ | p <;> rw [hp] at he
          · simp at he
          · rcases mem_closePipe _ _ _ he with rfl | rfl | rfl | rfl | rfl | rfl <;>
              simp
    · intro e he
      simp only [List.mem_append] at he
      rcases he with he | he
      · rcases hv : fileValid st.fileSize st.file1 <;> rw [hv] at he <;>
          simp at he
        rcases he with rfl | rfl <;> simp
      · rcases hv : (st.dual && fileValid st.fileSize st.file2) <;>
          rw [hv] at he <;> simp at he
        rcases he with rfl | rfl <;> simp
  · -- a running primary pipe is closed and waited on
    intro p hp hpoll
    unfold stopTrace closePipe finalizeSeq
    rw [hp]
    simp [hpoll]
  · -- a running secondary pipe is closed and waited on
    intro p hd hp hpoll
    unfold stopTrace closePipe finalizeSeq
    rw [hp, hd]
    simp [hpoll]

/-- C5 witness: the amended ordering applied to a concrete stop with a
running primary process. -/
theorem c5_witness :
    StopEvent.stdinClose 1 ∈ stopTrace c5wstate ∧
    StopEvent.waitProc 1 5 ∈ stopTrace c5wstate :=
  (c5_stop_ordering_amended c5wstate).2.2.2.2.1
    { poll0 := none, closeOutcome := .ok, waitTimesOut := false
    , pollAfterTerm := none, rcAfter := some 0, stderrText := [] } rfl rfl

/-! ## String lemmas for the log round trip (claim C7) -/

lemma startsWithL_iff (p : Str) : ∀ l : Str, startsWithL p l = true ↔ p <+: l := by
  induction p with
  | nil => intro l; simp [startsWithL]
  | cons a as ih =>
    intro l
    cases l with
    | nil => simp [startsWithL]
    | cons b bs => simp [startsWithL, ih, List.cons_prefix_cons]

lemma replaceSub_nil (pat rep : Str) : replaceSub [] pat rep = [] := by
  rw [replaceSub]

lemma replaceSub_no_match :
    ∀ (s pat rep : Str), ¬ (pat <:+: s) → replaceSub s pat rep = s := by
  intro s
  induction s with
  | nil => intro pat rep _; rw [replaceSub]
  | cons c rest ih =>
    intro pat rep h
    rw [replaceSub, dif_neg]
    · rw [ih pat rep (fun hi => h (List.infix_cons hi))]
    · rintro ⟨hne, hsw⟩
      exact h (List.IsPrefix.isInfix ((startsWithL_iff pat (c :: rest)).mp hsw))

lemma replaceSub_append_left (pat t rep : Str) (hne : pat ≠ []) :
    replaceSub (pat ++ t) pat rep = rep ++ replaceSub t pat rep := by
  cases pat with
  | nil => exact absurd rfl hne
  | cons c pr =>
    rw [List.cons_append, replaceSub, dif_pos]
    · have hd : (c :: (pr ++ t)).drop (c :: pr).length = t := by
        rw [show c :: (pr ++ t) = (c :: pr) ++ t from rfl, List.drop_left]
      rw [hd]
    · exact ⟨hne, (startsWithL_iff _ _).mpr
        (by rw [show c :: (pr ++ t) = (c :: pr) ++ t from rfl];
            exact List.prefix_append _ _)⟩

lemma replaceSub_exact (pat rep : Str) (hne : pat ≠ []) :
    replaceSub pat pat rep = rep := by
  have h := replaceSub_append_left pat [] rep hne
  rw [List.append_nil, replaceSub_nil, List.append_nil] at h
  exact h

lemma not_infix_of_mem_not_mem (c : Char) {pat s : Str} (hc : c ∈ pat)
    (hs : c ∉ s) : ¬ pat <:+: s :=
  fun h => hs (h.subset hc)

lemma not_infix_append_charset (pre s pat : Str) (P : Char → Bool)
    (hs : ∀ c ∈ s, P c = true) (c : Char) (hc : c ∈ pat) (hpre : c ∉ pre)
    (hP : P c = false) :
    ¬ pat <:+: (pre ++ s) :=
  not_infix_of_mem_not_mem c hc (fun hm => by
    rcases List.mem_append.mp hm with hm | hm
    · exact hpre hm
    · rw [hs c hm] at hP
      exact Bool.true_eq_false.mp hP)

lemma replaceSub_skip_charset (pre s pat rep : Str) (P : Char → Bool)
    (hs : ∀ c ∈ s, P c = true) (c : Char) (hc : c ∈ pat) (hpre : c ∉ pre)
    (hP : P c = false) :
    replaceSub (pre ++ s) pat rep = pre ++ s :=
  replaceSub_no_match _ _ _ (not_infix_append_charset pre s pat P hs c hc hpre hP)

/-! ## Digit-rendering lemmas -/

lemma digitChar_isDigit (k : Nat) (h : k < 10) :
    (Char.ofNat (48 + k)).isDigit = true := by
  interval_cases k <;> decide

lemma natDigits_digit : ∀ n : Nat, ∀ c ∈ natDigits n, c.isDigit = true := by
  intro n
  induction n using Nat.strong_induction_on with
  | _ n ih =>
    intro c hc
    rw [natDigits] at hc
    split at hc
    · rename_i h
      simp only [List.mem_singleton] at hc
      subst hc
      exact digitChar_isDigit n h
    · rename_i h
      rw [List.mem_append] at hc
      rcases hc with hc | hc
      · exact ih (n / 10) (Nat.div_lt_self (by omega) (by omega)) c hc
      · simp only [List.mem_singleton] at hc
        subst hc
        exact digitChar_isDigit _ (Nat.mod_lt _ (by omega))

lemma natDigits_ne_nil (n : Nat) : natDigits n ≠ [] := by
  rw [natDigits]
  split <;> simp

lemma natPad_digit (w n : Nat) : ∀ c ∈ natPad w n, c.isDigit = true := by
  intro c hc
  unfold natPad padZ at hc
  rw [List.mem_append] at hc
  rcases hc with hc | hc
  · rw [List.eq_of_mem_replicate hc]
    decide
  · exact natDigits_digit n c hc

lemma natPad_ne_nil (w n : Nat) : natPad w n ≠ [] := by
  unfold natPad padZ
  simp [natDigits_ne_nil]

lemma intPad_chars (w : Nat) (i : Int) :
    ∀ c ∈ intPad w i, c.isDigit = true ∨ c = '-' := by
  unfold intPad
  split
  · intro c hc
    rcases List.mem_cons.mp hc with rfl | hc
    · exact Or.inr rfl
    · exact Or.inl (natPad_digit _ _ c hc)
  · intro c hc
    exact Or.inl (natPad_digit _ _ c hc)

lemma natDigits_length_le : ∀ (k n : Nat), n < 10 ^ k → 1 ≤ k →
    (natDigits n).length ≤ k := by
  intro k
  induction k with
  | zero => intro n _ h1; omega
  | succ k ih =>
    intro n h _
    rw [natDigits]
    split
    · simp only [List.length_singleton]
      omega
    · rename_i hn
      rw [List.length_append]
      have hk : 1 ≤ k := by
        by_contra hk0
        have hz : k = 0 := by omega
        subst hz
        simp at h
        omega
      have hd : n / 10 < 10 ^ k := by
        have h10 : n < 10 ^ k * 10 := by
          have := pow_succ 10 k
          omega
        omega
      have := ih (n / 10) hd hk
      simp only [List.length_singleton]
      omega

lemma natPad_length (w n : Nat) (h : (natDigits n).length ≤ w) :
    (natPad w n).length = w := by
  unfold natPad padZ
  rw [List.length_append, List.length_replicate]
  omega

/-! ## Timestamp-shape lemmas -/

lemma strftimeFull_eq (d : DateTime) :
    strftimeFull d = strfHead d ++ natPad 6 d.micro := by
  unfold strftimeFull strfHead
  simp [List.append_assoc]

lemma strftimeMilli_decomp (d : DateTime) (h : d.micro ≤ 999999) :
    strftimeMilli d = strfHead d ++ (natPad 6 d.micro).take 3 := by
  have h6 : (natPad 6 d.micro).length = 6 :=
    natPad_length 6 d.micro (natDigits_length_le 6 d.micro
      (by have hp : (10 : Nat) ^ 6 = 1000000 := by norm_num
          omega)
      (by omega))
  unfold strftimeMilli
  rw [strftimeFull_eq, List.length_append, h6,
    List.take_append_eq_append_take]
  rw [List.take_of_length_le
    (show (strfHead d).length ≤ (strfHead d).length + 6 - 3 by omega)]
  have h3 : (strfHead d).length + 6 - 3 - (strfHead d).length = 3 := by omega
  rw [h3]

lemma chars_append {P : Char → Bool} {s t : Str}
    (hs : ∀ c ∈ s, P c = true) (ht : ∀ c ∈ t, P c = true) :
    ∀ c ∈ s ++ t, P c = true := by
  intro c hc
  rcases List.mem_append.mp hc with h | h
  exacts [hs c h, ht c h]

lemma chars_singleton {P : Char → Bool} {a : Char} (h : P a = true) :
    ∀ c ∈ [a], P c = true := by
  intro c hc
  rw [List.mem_singleton] at hc
  subst hc
  exact h

lemma natPad_ts (w n : Nat) : ∀ c ∈ natPad w n, tsChar c = true := by
  intro c hc
  simp [tsChar, natPad_digit w n c hc]

lemma intPad_dur (w : Nat) (i : Int) : ∀ c ∈ intPad w i, durChar c = true := by
  intro c hc
  rcases intPad_chars w i c hc with h | h
  · simp [durChar, h]
  · subst h
    decide

lemma strfHead_chars (d : DateTime) : ∀ c ∈ strfHead d, tsChar c = true := by
  unfold strfHead
  exact chars_append (chars_append (chars_append (chars_append (chars_append
    (chars_append (chars_append (chars_append (chars_append (chars_append
      (chars_append (natPad_ts 4 d.year) (chars_singleton (by decide)))
        (natPad_ts 2 d.month)) (chars_singleton (by decide)))
        (natPad_ts 2 d.day)) (chars_singleton (by decide)))
        (natPad_ts 2 d.hour)) (chars_singleton (by decide)))
        (natPad_ts 2 d.minute)) (chars_singleton (by decide)))
        (natPad_ts 2 d.second)) (chars_singleton (by decide))

lemma strftimeMilli_chars (d : DateTime) :
    ∀ c ∈ strftimeMilli d, tsChar c = true := by
  intro c hc
  have hc2 : c ∈ strftimeFull d := List.take_subset _ _ hc
  rw [strftimeFull_eq] at hc2
  rcases List.mem_append.mp hc2 with hc2 | hc2
  · exact strfHead_chars d c hc2
  · exact natPad_ts _ _ c hc2

lemma durationStr_eq (st en : DateTime) :
    durationStr st en =
      intPad 2 (((toMicros en : Int) - (toMicros st : Int)).fdiv 3600000000)
        ++ [':']
        ++ intPad 2 ((((toMicros en : Int) - (toMicros st : Int)).emod
            3600000000).fdiv 60000000)
        ++ [':']
        ++ intPad 2 ((((toMicros en : Int) - (toMicros st : Int)).emod
            60000000).fdiv 1000000)
        ++ ['.']
        ++ intPad 3 ((((toMicros en : Int) - (toMicros st : Int)).tmod
            1000000).tdiv 1000) := rfl

lemma durationStr_chars (st en : DateTime) :
    ∀ c ∈ durationStr st en, durChar c = true := by
  rw [durationStr_eq]
  exact chars_append (chars_append (chars_append (chars_append (chars_append
    (chars_append (intPad_dur 2 _) (chars_singleton (by decide)))
      (intPad_dur 2 _)) (chars_singleton (by decide)))
      (intPad_dur 2 _)) (chars_singleton (by decide)))
      (intPad_dur 3 _)

/-! ## strip() of a rendered timestamp -/

lemma digit_not_ws (c : Char) (h : c.isDigit = true) :
    c.isWhitespace = false := by
  have h0 : c ≠ ' ' := fun hc => absurd (hc ▸ h) (by decide)
  have h1 : c ≠ '\t' := fun hc => absurd (hc ▸ h) (by decide)
  have h2 : c ≠ '\r' := fun hc => absurd (hc ▸ h) (by decide)
  have h3 : c ≠ '\n' := fun hc => absurd (hc ▸ h) (by decide)
  unfold Char.isWhitespace
  simp [h0, h1, h2, h3]

lemma head_append_left {α : Type} (a b : List α) (h : a ≠ []) :
    (a ++ b).head? = a.head? := by
  cases a with
  | nil => exact absurd rfl h
  | cons x xs => rfl

lemma strftimeMilli_head (d : DateTime) (h : d.micro ≤ 999999) :
    ∀ c, (strftimeMilli d).head? = some c → c.isDigit = true := by
  intro c hc
  rw [strftimeMilli_decomp d h] at hc
  unfold strfHead at hc
  simp only [List.append_assoc] at hc
  rw [head_append_left _ _ (natPad_ne_nil 4 d.year)] at hc
  have hmem : c ∈ natPad 4 d.year := by
    rcases hnp : natPad 4 d.year with _ | ⟨x, xs⟩
    · exact absurd hnp (natPad_ne_nil 4 d.year)
    · rw [hnp] at hc
      simp only [List.head?_cons, Option.some.injEq] at hc
      rw [← hc]
      exact List.mem_cons_self _ _
  exact natPad_digit 4 d.year c hmem

lemma take3_natPad6_ne_nil (n : Nat) (h : n ≤ 999999) :
    (natPad 6 n).take 3 ≠ [] := by
  have h6 : (natPad 6 n).length = 6 :=
    natPad_length 6 n (natDigits_length_le 6 n
      (by have hp : (10 : Nat) ^ 6 = 1000000 := by norm_num
          omega)
      (by omega))
  intro hnil
  have := congrArg List.length hnil
  rw [List.length_take, h6] at this
  simp at this

lemma strftimeMilli_last (d : DateTime) (h : d.micro ≤ 999999) :
    ∀ c, (strftimeMilli d).getLast? = some c → c.isDigit = true := by
  intro c hc
  rw [strftimeMilli_decomp d h] at hc
  rw [List.getLast?_append_of_ne_nil _ (take3_natPad6_ne_nil d.micro h)] at hc
  have hmem : c ∈ (natPad 6 d.micro).take 3 := by
    obtain ⟨hne2, hcl⟩ := List.mem_getLast?_eq_getLast
      (show c ∈ ((natPad 6 d.micro).take 3).getLast? from hc)
    rw [hcl]
    exact List.getLast_mem hne2
  exact natPad_digit 6 d.micro c (List.take_subset _ _ hmem)

lemma dropWhile_eq_self_of_head (p : Char → Bool) (s : Str)
    (h : ∀ c, s.head? = some c → p c = false) : s.dropWhile p = s := by
  cases s with
  | nil => rfl
  | cons c t =>
    rw [List.dropWhile_cons, h c rfl]
    simp

lemma trimWs_eq_self (s : Str)
    (h1 : ∀ c, s.head? = some c → c.isWhitespace = false)
    (h2 : ∀ c, s.getLast? = some c → c.isWhitespace = false) :
    trimWs s = s := by
  unfold trimWs
  rw [dropWhile_eq_self_of_head _ _ h1]
  rw [dropWhile_eq_self_of_head _ _
    (fun c hc => h2 c (by rwa [List.head?_reverse] at hc))]
  exact List.reverse_reverse s

lemma trimWs_strftimeMilli (d : DateTime) (h : d.micro ≤ 999999) :
    trimWs (strftimeMilli d) = strftimeMilli d :=
  trimWs_eq_self _
    (fun c hc => digit_not_ws c (strftimeMilli_head d h c hc))
    (fun c hc => digit_not_ws c (strftimeMilli_last d h c hc))

/-! ## strptime succeeds on strftime output -/

lemma span_digits (a : Str) (c : Char) (t : Str)
    (ha : ∀ x ∈ a, x.isDigit = true) (hc : c.isDigit = false) :
    (a ++ c :: t).takeWhile Char.isDigit = a ∧
    (a ++ c :: t).dropWhile Char.isDigit = c :: t := by
  induction a with
  | nil =>
    constructor
    · rw [List.nil_append, List.takeWhile_cons, hc]
      simp
    · rw [List.nil_append, List.dropWhile_cons, hc]
      simp
  | cons x xs ih =>
    have hx : x.isDigit = true := ha x (List.mem_cons_self _ _)
    have ih2 := ih (fun y hy => ha y (List.mem_cons_of_mem _ hy))
    constructor
    · rw [List.cons_append, List.takeWhile_cons, hx]
      simp only [ih2.1]
      simp
    · rw [List.cons_append, List.dropWhile_cons, hx]
      simp only [ih2.2]
      simp

lemma span_digits_all (a : Str) (ha : ∀ x ∈ a, x.isDigit = true) :
    a.takeWhile Char.isDigit = a ∧ a.dropWhile Char.isDigit = [] := by
  induction a with
  | nil => exact ⟨rfl, rfl⟩
  | cons x xs ih =>
    have hx : x.isDigit = true := ha x (List.mem_cons_self _ _)
    have ih2 := ih (fun y hy => ha y (List.mem_cons_of_mem _ hy))
    constructor
    · rw [List.takeWhile_cons, hx]
      simp only [ih2.1]
      simp
    · rw [List.dropWhile_cons, hx]
      simp only [ih2.2]
      simp

lemma parseDigits_append (a : Str) (c : Char) (t : Str) (hane : a ≠ [])
    (ha : ∀ x ∈ a, x.isDigit = true) (hc : c.isDigit = false) :
    parseDigits (a ++ c :: t) = some (a, c :: t) := by
  unfold parseDigits
  rw [(span_digits a c t ha hc).1, (span_digits a c t ha hc).2, if_neg hane]

lemma parseDigits_all (a : Str) (hane : a ≠ [])
    (ha : ∀ x ∈ a, x.isDigit = true) :
    parseDigits a = some (a, []) := by
  unfold parseDigits
  rw [(span_digits_all a ha).1, (span_digits_all a ha).2, if_neg hane]

lemma expectChar_cons (c : Char) (t : Str) : expectChar c (c :: t) = some t := by
  unfold expectChar
  simp

lemma parseDigits_natPad_dash (w n : Nat) (t : Str) :
    parseDigits (natPad w n ++ '-' :: t) = some (natPad w n, '-' :: t) :=
  parseDigits_append _ _ _ (natPad_ne_nil w n) (natPad_digit w n) (by decide)

lemma parseDigits_natPad_space (w n : Nat) (t : Str) :
    parseDigits (natPad w n ++ ' ' :: t) = some (natPad w n, ' ' :: t) :=
  parseDigits_append _ _ _ (natPad_ne_nil w n) (natPad_digit w n) (by decide)

lemma parseDigits_natPad_colon (w n : Nat) (t : Str) :
    parseDigits (natPad w n ++ ':' :: t) = some (natPad w n, ':' :: t) :=
  parseDigits_append _ _ _ (natPad_ne_nil w n) (natPad_digit w n) (by decide)

lemma parseDigits_natPad_dot (w n : Nat) (t : Str) :
    parseDigits (natPad w n ++ '.' :: t) = some (natPad w n, '.' :: t) :=
  parseDigits_append _ _ _ (natPad_ne_nil w n) (natPad_digit w n) (by decide)

lemma strptimeMilli_of_strftime (d : DateTime) (h : d.micro ≤ 999999) :
    (strptimeMilli (strftimeMilli d)).isSome = true := by
  have hshape : strftimeMilli d =
      natPad 4 d.year ++ '-' ::
        (natPad 2 d.month ++ '-' ::
          (natPad 2 d.day ++ ' ' ::
            (natPad 2 d.hour ++ ':' ::
              (natPad 2 d.minute ++ ':' ::
                (natPad 2 d.second ++ '.' ::
                  (natPad 6 d.micro).take 3))))) := by
    rw [strftimeMilli_decomp d h]
    unfold strfHead
    simp [List.append_assoc]
  rw [hshape]
  simp only [strptimeMilli, Option.bind_eq_bind, Option.pure_def,
    parseDigits_natPad_dash,
    parseDigits_natPad_space, parseDigits_natPad_colon, parseDigits_natPad_dot,
    Option.some_bind, expectChar_cons,
    parseDigits_all _ (take3_natPad6_ne_nil d.micro h)
      (fun x hx => natPad_digit 6 d.micro x (List.take_subset _ _ hx))]
  simp

/-! ## The C7 scenario: createLog then updateLog leaves no placeholder -/

lemma c7logContent_eq (hashv ts1 endv durv cr : Str) :
    logContent c7audioPath "N/A".toList hashv ts1 endv durv
      (List.intercalate [' '] c7command) "linux".toList "3.11.2".toList cr
    = c7linesM hashv ts1 endv durv cr := by
  unfold logContent c7linesM
  simp only [List.cons.injEq]
  repeat' apply And.intro
  all_goals first | rfl | decide

lemma c7_pass_end (ts1 cr endv : Str) (h1 : ∀ c ∈ ts1, tsChar c = true)
    (h2 : ∀ c ∈ cr, tsChar c = true) :
    (c7linesM "File not found".toList ts1 "In Progress".toList
        "In Progress".toList cr).map
      (fun l => replaceSub l "End Time: In Progress".toList
        ("End Time: ".toList ++ endv))
    = c7linesM "File not found".toList ts1 endv "In Progress".toList cr := by
  unfold c7linesM
  simp only [List.map_cons, List.map_nil, replaceSub_nil]
  rw [replaceSub_no_match ("KVSrecorder v1.0.1 - RECORDING LOG".toList)
    ("End Time: In Progress".toList) _ (by decide)]
  rw [replaceSub_no_match ("==================================".toList)
    ("End Time: In Progress".toList) _ (by decide)]
  rw [replaceSub_no_match ("File Information:".toList)
    ("End Time: In Progress".toList) _ (by decide)]
  rw [replaceSub_no_match ("----------------".toList)
    ("End Time: In Progress".toList) _ (by decide)]
  rw [replaceSub_no_match ("Filename: rec_20250101-120000.wav".toList)
    ("End Time: In Progress".toList) _ (by decide)]
  rw [replaceSub_no_match
    ("File Path: /tmp/out/rec_20250101-120000.wav".toList)
    ("End Time: In Progress".toList) _ (by decide)]
  rw [replaceSub_no_match ("File Size: N/A".toList)
    ("End Time: In Progress".toList) _ (by decide)]
  rw [replaceSub_no_match
    ("File Hash (SHA-256): ".toList ++ "File not found".toList)
    ("End Time: In Progress".toList) _ (by decide)]
  rw [replaceSub_no_match ("Recording Session:".toList)
    ("End Time: In Progress".toList) _ (by decide)]
  rw [replaceSub_skip_charset ("Start Time: ".toList) ts1
    ("End Time: In Progress".toList) _ tsChar h1 'E' (by decide) (by decide)
    (by decide)]
  rw [show ("End Time: ".toList ++ "In Progress".toList : Str)
    = "End Time: In Progress".toList from by decide]
  rw [replaceSub_exact ("End Time: In Progress".toList) _ (by decide)]
  rw [replaceSub_no_match ("Duration: ".toList ++ "In Progress".toList)
    ("End Time: In Progress".toList) _ (by decide)]
  rw [replaceSub_no_match ("FFmpeg Command:".toList)
    ("End Time: In Progress".toList) _ (by decide)]
  rw [replaceSub_no_match
    ("ffmpeg -y -f s16le -ar 48000 -ac 1 -i pipe:0 -c:a pcm_s16le /tmp/out/rec_20250101-120000.wav".toList)
    ("End Time: In Progress".toList) _ (by decide)]
  rw [replaceSub_no_match ("System Information:".toList)
    ("End Time: In Progress".toList) _ (by decide)]
  rw [replaceSub_no_match ("Platform: linux".toList)
    ("End Time: In Progress".toList) _ (by decide)]
  rw [replaceSub_no_match ("Python Version: 3.11.2".toList)
    ("End Time: In Progress".toList) _ (by decide)]
  rw [replaceSub_no_match ("Software Version: 1.0.1".toList)
    ("End Time: In Progress".toList) _ (by decide)]
  rw [replaceSub_skip_charset ("Log Created: ".toList) cr
    ("End Time: In Progress".toList) _ tsChar h2 'E' (by decide) (by decide)
    (by decide)]

lemma c7_pass_dur (ts1 endv cr durv : Str) (h1 : ∀ c ∈ ts1, tsChar c = true)
    (h2 : ∀ c ∈ endv, tsChar c = true) (h3 : ∀ c ∈ cr, tsChar c = true) :
    (c7linesM "File not found".toList ts1 endv "In Progress".toList cr).map
      (fun l => replaceSub l "Duration: In Progress".toList
        ("Duration: ".toList ++ durv))
    = c7linesM "File not found".toList ts1 endv durv cr := by
  unfold c7linesM
  simp only [List.map_cons, List.map_nil, replaceSub_nil]
  rw [replaceSub_no_match ("KVSrecorder v1.0.1 - RECORDING LOG".toList)
    ("Duration: In Progress".toList) _ (by decide)]
  rw [replaceSub_no_match ("==================================".toList)
    ("Duration: In Progress".toList) _ (by decide)]
  rw [replaceSub_no_match ("File Information:".toList)
    ("Duration: In Progress".toList) _ (by decide)]
  rw [replaceSub_no_match ("----------------".toList)
    ("Duration: In Progress".toList) _ (by decide)]
  rw [replaceSub_no_match ("Filename: rec_20250101-120000.wav".toList)
    ("Duration: In Progress".toList) _ (by decide)]
  rw [replaceSub_no_match
    ("File Path: /tmp/out/rec_20250101-120000.wav".toList)
    ("Duration: In Progress".toList) _ (by decide)]
  rw [replaceSub_no_match ("File Size: N/A".toList)
    ("Duration: In Progress".toList) _ (by decide)]
  rw [replaceSub_no_match
    ("File Hash (SHA-256): ".toList ++ "File not found".toList)
    ("Duration: In Progress".toList) _ (by decide)]
  rw [replaceSub_no_match ("Recording Session:".toList)
    ("Duration: In Progress".toList) _ (by decide)]
  rw [replaceSub_skip_charset ("Start Time: ".toList) ts1
    ("Duration: In Progress".toList) _ tsChar h1 'u' (by decide) (by decide)
    (by decide)]
  rw [replaceSub_skip_charset ("End Time: ".toList) endv
    ("Duration: In Progress".toList) _ tsChar h2 'u' (by decide) (by decide)
    (by decide)]
  rw [show ("Duration: ".toList ++ "In Progress".toList : Str)
    = "Duration: In Progress".toList from by decide]
  rw [replaceSub_exact ("Duration: In Progress".toList) _ (by decide)]
  rw [replaceSub_no_match ("FFmpeg Command:".toList)
    ("Duration: In Progress".toList) _ (by decide)]
  rw [replaceSub_no_match
    ("ffmpeg -y -f s16le -ar 48000 -ac 1 -i pipe:0 -c:a pcm_s16le /tmp/out/rec_20250101-120000.wav".toList)
    ("Duration: In Progress".toList) _ (by decide)]
  rw [replaceSub_no_match ("System Information:".toList)
    ("Duration: In Progress".toList) _ (by decide)]
  rw [replaceSub_no_match ("Platform: linux".toList)
    ("Duration: In Progress".toList) _ (by decide)]
  rw [replaceSub_no_match ("Python Version: 3.11.2".toList)
    ("Duration: In Progress".toList) _ (by decide)]
  rw [replaceSub_no_match ("Software Version: 1.0.1".toList)
    ("Duration: In Progress".toList) _ (by decide)]
  rw [replaceSub_skip_charset ("Log Created: ".toList) cr
    ("Duration: In Progress".toList) _ tsChar h3 'u' (by decide) (by decide)
    (by decide)]

lemma c7_pass_hash (ts1 endv durv cr hv : Str) (h1 : ∀ c ∈ ts1, tsChar c = true)
    (h2 : ∀ c ∈ endv, tsChar c = true) (h3 : ∀ c ∈ durv, durChar c = true)
    (h4 : ∀ c ∈ cr, tsChar c = true) :
    (c7linesM "File not found".toList ts1 endv durv cr).map
      (fun l => replaceSub l "File Hash (SHA-256): File not found".toList
        ("File Hash (SHA-256): ".toList ++ hv))
    = c7linesM hv ts1 endv durv cr := by
  unfold c7linesM
  simp only [List.map_cons, List.map_nil, replaceSub_nil]
  rw [replaceSub_no_match ("KVSrecorder v1.0.1 - RECORDING LOG".toList)
    ("File Hash (SHA-256): File not found".toList) _ (by decide)]
  rw [replaceSub_no_match ("==================================".toList)
    ("File Hash (SHA-256): File not found".toList) _ (by decide)]
  rw [replaceSub_no_match ("File Information:".toList)
    ("File Hash (SHA-256): File not found".toList) _ (by decide)]
  rw [replaceSub_no_match ("----------------".toList)
    ("File Hash (SHA-256): File not found".toList) _ (by decide)]
  rw [replaceSub_no_match ("Filename: rec_20250101-120000.wav".toList)
    ("File Hash (SHA-256): File not found".toList) _ (by decide)]
  rw [replaceSub_no_match
    ("File Path: /tmp/out/rec_20250101-120000.wav".toList)
    ("File Hash (SHA-256): File not found".toList) _ (by decide)]
  rw [replaceSub_no_match ("File Size: N/A".toList)
    ("File Hash (SHA-256): File not found".toList) _ (by decide)]
  rw [show ("File Hash (SHA-256): ".toList ++ "File not found".toList : Str)
    = "File Hash (SHA-256): File not found".toList from by decide]
  rw [replaceSub_exact ("File Hash (SHA-256): File not found".toList) _
    (by decide)]
  rw [replaceSub_no_match ("Recording Session:".toList)
    ("File Hash (SHA-256): File not found".toList) _ (by decide)]
  rw [replaceSub_skip_charset ("Start Time: ".toList) ts1
    ("File Hash (SHA-256): File not found".toList) _ tsChar h1 '(' (by decide)
    (by decide) (by decide)]
  rw [replaceSub_skip_charset ("End Time: ".toList) endv
    ("File Hash (SHA-256): File not found".toList) _ tsChar h2 '(' (by decide)
    (by decide) (by decide)]
  rw [replaceSub_skip_charset ("Duration: ".toList) durv
    ("File Hash (SHA-256): File not found".toList) _ durChar h3 '(' (by decide)
    (by decide) (by decide)]
  rw [replaceSub_no_match ("FFmpeg Command:".toList)
    ("File Hash (SHA-256): File not found".toList) _ (by decide)]
  rw [replaceSub_no_match
    ("ffmpeg -y -f s16le -ar 48000 -ac 1 -i pipe:0 -c:a pcm_s16le /tmp/out/rec_20250101-120000.wav".toList)
    ("File Hash (SHA-256): File not found".toList) _ (by decide)]
  rw [replaceSub_no_match ("System Information:".toList)
    ("File Hash (SHA-256): File not found".toList) _ (by decide)]
  rw [replaceSub_no_match ("Platform: linux".toList)
    ("File Hash (SHA-256): File not found".toList) _ (by decide)]
  rw [replaceSub_no_match ("Python Version: 3.11.2".toList)
    ("File Hash (SHA-256): File not found".toList) _ (by decide)]
  rw [replaceSub_no_match ("Software Version: 1.0.1".toList)
    ("File Hash (SHA-256): File not found".toList) _ (by decide)]
  rw [replaceSub_skip_charset ("Log Created: ".toList) cr
    ("File Hash (SHA-256): File not found".toList) _ tsChar h4 '(' (by decide)
    (by decide) (by decide)]

lemma not_true_of_eq_false {b : Bool} (h : b = false) : ¬ b = true := by
  simp [h]

lemma c7_find_start (hashv ts1 endv durv cr : Str) :
    ((c7linesM hashv ts1 endv durv cr).find?
      (fun l => startsWithL "Start Time:".toList l))
    = some ("Start Time: ".toList ++ ts1) := by
  unfold c7linesM
  rw [List.find?_cons_of_neg _ (not_true_of_eq_false rfl)]
  rw [List.find?_cons_of_neg _ (not_true_of_eq_false rfl)]
  rw [List.find?_cons_of_neg _ (not_true_of_eq_false rfl)]
  rw [List.find?_cons_of_neg _ (not_true_of_eq_false rfl)]
  rw [List.find?_cons_of_neg _ (not_true_of_eq_false rfl)]
  rw [List.find?_cons_of_neg _ (not_true_of_eq_false rfl)]
  rw [List.find?_cons_of_neg _ (not_true_of_eq_false rfl)]
  rw [List.find?_cons_of_neg _ (not_true_of_eq_false rfl)]
  rw [List.find?_cons_of_neg _ (not_true_of_eq_false rfl)]
  rw [List.find?_cons_of_neg _ (not_true_of_eq_false rfl)]
  rw [List.find?_cons_of_neg _ (not_true_of_eq_false rfl)]
  rw [List.find?_cons_of_neg _ (not_true_of_eq_false rfl)]
  rw [List.find?_cons_of_neg _ (not_true_of_eq_false rfl)]
  rw [List.find?_cons_of_pos _ rfl]

lemma c7_find_path (hashv ts1 endv durv cr : Str) :
    ((c7linesM hashv ts1 endv durv cr).find?
      (fun l => startsWithL "File Path:".toList l))
    = some ("File Path: ".toList ++ "/tmp/out/rec_20250101-120000.wav".toList) := by
  unfold c7linesM
  rw [List.find?_cons_of_neg _ (not_true_of_eq_false rfl)]
  rw [List.find?_cons_of_neg _ (not_true_of_eq_false rfl)]
  rw [List.find?_cons_of_neg _ (not_true_of_eq_false rfl)]
  rw [List.find?_cons_of_neg _ (not_true_of_eq_false rfl)]
  rw [List.find?_cons_of_neg _ (not_true_of_eq_false rfl)]
  rw [List.find?_cons_of_neg _ (not_true_of_eq_false rfl)]
  rw [List.find?_cons_of_neg _ (not_true_of_eq_false rfl)]
  rw [List.find?_cons_of_pos _ rfl]
  rw [show ("File Path: /tmp/out/rec_20250101-120000.wav".toList : Str)
    = "File Path: ".toList ++ "/tmp/out/rec_20250101-120000.wav".toList
    from by decide]

lemma c7_start_extract (d : DateTime) (h : d.micro ≤ 999999) :
    trimWs (replaceSub ("Start Time: ".toList ++ strftimeMilli d)
      "Start Time: ".toList []) = strftimeMilli d := by
  rw [replaceSub_append_left _ _ _ (by decide), List.nil_append]
  rw [replaceSub_no_match (strftimeMilli d) _ _
    (not_infix_of_mem_not_mem 'S' (by decide) (fun hm =>
      absurd (strftimeMilli_chars d 'S' hm) (by decide)))]
  exact trimWs_strftimeMilli d h

lemma c7_path_extract :
    trimWs (replaceSub
      ("File Path: ".toList ++ "/tmp/out/rec_20250101-120000.wav".toList)
      "File Path: ".toList []) = "/tmp/out/rec_20250101-120000.wav".toList := by
  rw [replaceSub_append_left _ _ _ (by decide), List.nil_append]
  rw [replaceSub_no_match ("/tmp/out/rec_20250101-120000.wav".toList) _ _
    (by decide)]
  decide

lemma c7_updEndTime (fs : FS) (hfb : ∀ p, fs.bytes p = none)
    (startT endT now : DateTime) (hsm : startT.micro ≤ 999999) :
    ∃ d2, updEndTime fs
      (c7linesM "File not found".toList (strftimeMilli startT)
        "In Progress".toList "In Progress".toList (strftimeMilli now)) endT
    = c7linesM "File not found".toList (strftimeMilli startT)
        (strftimeMilli endT) (durationStr d2 endT) (strftimeMilli now) := by
  obtain ⟨d2, hd2⟩ :=
    Option.isSome_iff_exists.mp (strptimeMilli_of_strftime startT hsm)
  refine ⟨d2, ?_⟩
  simp only [updEndTime]
  rw [c7_pass_end (strftimeMilli startT) (strftimeMilli now)
    (strftimeMilli endT) (strftimeMilli_chars startT) (strftimeMilli_chars now)]
  rw [c7_find_start]
  simp only [Option.map_some']
  rw [c7_start_extract startT hsm, hd2]
  simp only []
  rw [c7_pass_dur (strftimeMilli startT) (strftimeMilli endT)
    (strftimeMilli now) (durationStr d2 endT) (strftimeMilli_chars startT)
    (strftimeMilli_chars endT) (strftimeMilli_chars now)]
  rw [c7_find_path]
  simp only [Option.map_some']
  rw [c7_path_extract]
  rw [hfb ("/tmp/out/rec_20250101-120000.wav".toList)]

lemma c7linesM_clean (hashv ts1 endv durv cr : Str)
    (hh : ∀ c ∈ hashv, isHexLowerChar c = true)
    (h1 : ∀ c ∈ ts1, tsChar c = true) (h2 : ∀ c ∈ endv, tsChar c = true)
    (h3 : ∀ c ∈ durv, durChar c = true) (h4 : ∀ c ∈ cr, tsChar c = true) :
    ∀ l ∈ c7linesM hashv ts1 endv durv cr,
      ¬ ("In Progress".toList <:+: l) ∧
      ¬ ("File not found".toList <:+: l) := by
  intro l hl
  unfold c7linesM at hl
  simp only [List.mem_cons, List.not_mem_nil, or_false] at hl
  rcases hl with rfl|rfl|rfl|rfl|rfl|rfl|rfl|rfl|rfl|rfl|rfl|rfl|rfl|rfl|rfl|
    rfl|rfl|rfl|rfl|rfl|rfl|rfl|rfl|rfl|rfl|rfl|rfl|rfl <;>
  constructor <;>
  first
    | decide
    | exact not_infix_append_charset _ _ _ isHexLowerChar hh 'I' (by decide)
        (by decide) (by decide)
    | exact not_infix_append_charset _ _ _ isHexLowerChar hh 'u' (by decide)
        (by decide) (by decide)
    | exact not_infix_append_charset _ _ _ tsChar h1 'I' (by decide)
        (by decide) (by decide)
    | exact not_infix_append_charset _ _ _ tsChar h1 'F' (by decide)
        (by decide) (by decide)
    | exact not_infix_append_charset _ _ _ tsChar h2 'I' (by decide)
        (by decide) (by decide)
    | exact not_infix_append_charset _ _ _ tsChar h2 'F' (by decide)
        (by decide) (by decide)
    | exact not_infix_append_charset _ _ _ durChar h3 'I' (by decide)
        (by decide) (by decide)
    | exact not_infix_append_charset _ _ _ durChar h3 'F' (by decide)
        (by decide) (by decide)
    | exact not_infix_append_charset _ _ _ tsChar h4 'I' (by decide)
        (by decide) (by decide)
    | exact not_infix_append_charset _ _ _ tsChar h4 'F' (by decide)
        (by decide) (by decide)

/-- C7: for every log path, start time, end time and 64-hex-character
hash, `create_recording_log` followed immediately by
`update_recording_log` with that end time and hash yields a log whose
content contains no remaining `"In Progress"` placeholder and no remaining
`"File not found"` placeholder (scenario: the canonical in-progress log,
written before the output file exists). -/
theorem c7_create_update_round_trip :
    ∀ (digest : HashType → Bytes → Str) (fs : FS) (lp : Str)
      (startT endT now : DateTime) (hv : Str),
      (∀ p, fs.bytes p = none) → ValidDT startT → ValidDT endT →
      hv.length = 64 → (∀ c ∈ hv, isHexLowerChar c = true) →
      ∃ ls,
        (updateRecordingLog
          (createRecordingLog digest fs lp c7audioPath c7command startT none
            "linux".toList "3.11.2".toList now).2
          lp (some endT) (some hv)).2.text lp = some ls ∧
        ∀ l ∈ ls, ¬ ("In Progress".toList <:+: l) ∧
          ¬ ("File not found".toList <:+: l) := by
  intro digest fs lp startT endT now hv hfb hvs hve hlen hhex
  have hmicro : startT.micro ≤ 999999 := hvs.2.2.2.2.2.2.2.2.2
  have htext : (createRecordingLog digest fs lp c7audioPath c7command startT
      none "linux".toList "3.11.2".toList now).2.text lp
      = some (c7linesM "File not found".toList (strftimeMilli startT)
          "In Progress".toList "In Progress".toList (strftimeMilli now)) := by
    simp only [createRecordingLog, hfb c7audioPath]
    rw [c7logContent_eq]
    simp
  have hbytes : ∀ p, (createRecordingLog digest fs lp c7audioPath c7command
      startT none "linux".toList "3.11.2".toList now).2.bytes p = none := by
    intro p
    simp only [createRecordingLog]
    exact hfb p
  obtain ⟨d2, hupd⟩ := c7_updEndTime _ hbytes startT endT now hmicro
  have hne : hv ≠ [] := by
    intro h0
    rw [h0] at hlen
    simp at hlen
  refine ⟨c7linesM hv (strftimeMilli startT) (strftimeMilli endT)
    (durationStr d2 endT) (strftimeMilli now), ?_, ?_⟩
  · simp only [updateRecordingLog]
    rw [htext]
    simp only []
    rw [hupd, if_neg hne]
    rw [c7_pass_hash (strftimeMilli startT) (strftimeMilli endT)
      (durationStr d2 endT) (strftimeMilli now) hv
      (strftimeMilli_chars startT) (strftimeMilli_chars endT)
      (durationStr_chars d2 endT) (strftimeMilli_chars now)]
    simp
  · exact c7linesM_clean hv (strftimeMilli startT) (strftimeMilli endT)
      (durationStr d2 endT) (strftimeMilli now) hhex
      (strftimeMilli_chars startT) (strftimeMilli_chars endT)
      (durationStr_chars d2 endT) (strftimeMilli_chars now)

/-- C7 witness: the round trip at a concrete start/end time and hash. -/
theorem c7_witness :
    ∃ ls,
      (updateRecordingLog
        (createRecordingLog (fun _ _ => []) c7fs "log.txt".toList c7audioPath
          c7command ⟨2025, 1, 1, 12, 0, 0, 0⟩ none "linux".toList
          "3.11.2".toList ⟨2025, 1, 1, 12, 0, 0, 500⟩).2
        "log.txt".toList (some ⟨2025, 1, 1, 12, 30, 0, 0⟩)
        (some (List.replicate 64 'a'))).2.text "log.txt".toList = some ls ∧
      ∀ l ∈ ls, ¬ ("In Progress".toList <:+: l) ∧
        ¬ ("File not found".toList <:+: l) :=
  c7_create_update_round_trip (fun _ _ => []) c7fs "log.txt".toList
    ⟨2025, 1, 1, 12, 0, 0, 0⟩ ⟨2025, 1, 1, 12, 30, 0, 0⟩
    ⟨2025, 1, 1, 12, 0, 0, 500⟩ (List.replicate 64 'a')
    (fun _ => rfl) (by decide) (by decide) (by decide) (by decide)

end KVS
